import Mathlib

/-!
Bus-matrix register accessors (SAM4S `matrix.c`) and AVS audio capture.

A shallow embedding of

* `sam/drivers/matrix/matrix.c`: the masked read-modify-write accessors of the
  bus-matrix register block, and
* `apps/demo/avs_app/avs_app_capture.c`: the audio capture worker.

Machine words are natural numbers; 32-bit stores and casts are reduced modulo `2 ^ 32`
where the C code truncates.
-/

set_option autoImplicit false

namespace BusMatrix

/-! ## Register block -/

/-- Modelled from the spec: the type `Matrix` of the device header is not part of the
sources. It is "a fixed memory-mapped structure" of registers; here it is the 32-bit word
stored at each byte address, read and written through `Matrix *p_matrix`. -/
abbrev Matrix := Nat → Nat

/-- Every word of the register file is a `uint32_t`. -/
def Matrix.WF (p_matrix : Matrix) : Prop := ∀ a, p_matrix a < 2 ^ 32

/-- Modelled from the spec: the bit-field constants of the device header are not part of the
sources. A "named bit-field" is given by its position `X_Pos` and its number of bits. -/
structure Field where
  Pos : Nat
  Width : Nat
deriving DecidableEq, Repr

/-- Modelled from the spec: the header constant `X_Msk` of a field, the mask of its bits:
`Width` one bits shifted to `X_Pos`. -/
def Field.Msk (f : Field) : Nat := (2 ^ f.Width - 1) <<< f.Pos

/-- Modelled from the spec: the header value macro `X(value)` of a shifted field, "the new
encoded value" that the setter ORs in: the value shifted to `X_Pos` on `uint32_t` and cut to
the field, `(X_Msk & ((value) << X_Pos))`. -/
def Field.enc (f : Field) (value : Nat) : Nat := f.Msk &&& ((value <<< f.Pos) % 2 ^ 32)

/-- The constants `matrix.c` takes from the device header (which is not part of the
sources): base address of the block, byte offsets of the members of `Matrix`, the array
dimensions and the bit-fields. -/
structure MatrixHeader where
  MATRIX : Nat
  MATRIX_MCFG : Nat
  MCFG_dim : Nat
  MATRIX_SCFG : Nat
  SCFG_dim : Nat
  MATRIX_PRAS0 : Nat
  MATRIX_PRAS1 : Nat
  MATRIX_WPMR : Nat
  MATRIX_WPSR : Nat
  MATRIX_MCFG_ULBT : Field
  MATRIX_SCFG_SLOT_CYCLE : Field
  MATRIX_SCFG_DEFMSTR_TYPE : Field
  MATRIX_SCFG_FIXED_DEFMSTR : Field
  MATRIX_SCFG_ARBT : Field
  MATRIX_WPMR_WPEN : Field
  MATRIX_WPMR_WPKEY : Field
deriving DecidableEq, Repr

/-- Address of `p_matrix->MATRIX_MCFG[ul_id]`. -/
def MatrixHeader.MCFG (h : MatrixHeader) (ul_id : Nat) : Nat :=
  h.MATRIX + h.MATRIX_MCFG + 4 * ul_id

/-- Address of `p_matrix->MATRIX_SCFG[ul_id]`. -/
def MatrixHeader.SCFG (h : MatrixHeader) (ul_id : Nat) : Nat :=
  h.MATRIX + h.MATRIX_SCFG + 4 * ul_id

/-- Address of `p_matrix->MATRIX_WPMR`. -/
def MatrixHeader.WPMR (h : MatrixHeader) : Nat := h.MATRIX + h.MATRIX_WPMR

/-- Address of `p_matrix->MATRIX_WPSR`. -/
def MatrixHeader.WPSR (h : MatrixHeader) : Nat := h.MATRIX + h.MATRIX_WPSR

/-- A header is well formed when every field lies inside a 32-bit word, the four fields of
`MATRIX_SCFG` follow one another without overlap, the `MATRIX_MCFG` array ends before the
`MATRIX_SCFG` array begins, the two write-protect registers are distinct members, and in
`MATRIX_WPMR` the one-bit field `WPEN` lies below the field `WPKEY`. -/
def MatrixHeader.WF (h : MatrixHeader) : Prop :=
  h.MATRIX_MCFG_ULBT.Pos + h.MATRIX_MCFG_ULBT.Width ≤ 32 ∧
  h.MATRIX_SCFG_SLOT_CYCLE.Pos + h.MATRIX_SCFG_SLOT_CYCLE.Width ≤ h.MATRIX_SCFG_DEFMSTR_TYPE.Pos ∧
  h.MATRIX_SCFG_DEFMSTR_TYPE.Pos + h.MATRIX_SCFG_DEFMSTR_TYPE.Width
    ≤ h.MATRIX_SCFG_FIXED_DEFMSTR.Pos ∧
  h.MATRIX_SCFG_FIXED_DEFMSTR.Pos + h.MATRIX_SCFG_FIXED_DEFMSTR.Width ≤ h.MATRIX_SCFG_ARBT.Pos ∧
  h.MATRIX_SCFG_ARBT.Pos + h.MATRIX_SCFG_ARBT.Width ≤ 32 ∧
  h.MATRIX_MCFG + 4 * h.MCFG_dim ≤ h.MATRIX_SCFG ∧
  h.MATRIX_WPMR ≠ h.MATRIX_WPSR ∧
  h.MATRIX_WPMR_WPEN.Width = 1 ∧
  h.MATRIX_WPMR_WPEN.Pos + h.MATRIX_WPMR_WPEN.Width ≤ h.MATRIX_WPMR_WPKEY.Pos ∧
  h.MATRIX_WPMR_WPKEY.Pos + h.MATRIX_WPMR_WPKEY.Width ≤ 32

instance (h : MatrixHeader) : Decidable h.WF := by
  unfold MatrixHeader.WF; infer_instance

/-- An instance of the header, with the values of the SAM4S device: block at `0x400E0200`, `MATRIX_MCFG[4]` at
offset `0x00`, `MATRIX_SCFG[5]` at `0x40`, `MATRIX_PRAS0` at `0x80`, `MATRIX_PRAS1` at `0x88`,
`MATRIX_WPMR` at `0x1E4`, `MATRIX_WPSR` at `0x1E8`. -/
def sam4s : MatrixHeader where
  MATRIX := 0x400E0200
  MATRIX_MCFG := 0x00
  MCFG_dim := 4
  MATRIX_SCFG := 0x40
  SCFG_dim := 5
  MATRIX_PRAS0 := 0x80
  MATRIX_PRAS1 := 0x88
  MATRIX_WPMR := 0x1E4
  MATRIX_WPSR := 0x1E8
  MATRIX_MCFG_ULBT := ⟨0, 3⟩
  MATRIX_SCFG_SLOT_CYCLE := ⟨0, 8⟩
  MATRIX_SCFG_DEFMSTR_TYPE := ⟨16, 2⟩
  MATRIX_SCFG_FIXED_DEFMSTR := ⟨18, 3⟩
  MATRIX_SCFG_ARBT := ⟨24, 2⟩
  MATRIX_WPMR_WPEN := ⟨0, 1⟩
  MATRIX_WPMR_WPKEY := ⟨8, 24⟩

/-- The C operator `~` on a `uint32_t`. -/
def not32 (x : Nat) : Nat := (2 ^ 32 - 1) ^^^ (x % 2 ^ 32)

/-- The store `*addr = value` of a `uint32_t` into the register file. -/
def Matrix.store (p_matrix : Matrix) (addr value : Nat) : Matrix :=
  fun a => if a = addr then value % 2 ^ 32 else p_matrix a

/-! ## The accessors of `matrix.c` -/

/-- Embedding of `matrix_set_master_burst_type` (matrix.c:72). -/
def matrix_set_master_burst_type (h : MatrixHeader) (ul_id burst_type : Nat)
    (p_matrix : Matrix) : Matrix :=
  let ul_reg := p_matrix (h.MCFG ul_id) &&& not32 h.MATRIX_MCFG_ULBT.Msk
  p_matrix.store (h.MCFG ul_id) (ul_reg ||| burst_type % 2 ^ 32)

/-- Embedding of `matrix_get_master_burst_type` (matrix.c:88). -/
def matrix_get_master_burst_type (h : MatrixHeader) (ul_id : Nat) (p_matrix : Matrix) : Nat :=
  let ul_reg := p_matrix (h.MCFG ul_id) &&& h.MATRIX_MCFG_ULBT.Msk
  ul_reg

/-- Embedding of `matrix_set_slave_slot_cycle` (matrix.c:103). -/
def matrix_set_slave_slot_cycle (h : MatrixHeader) (ul_id ul_slot_cycle : Nat)
    (p_matrix : Matrix) : Matrix :=
  let ul_reg := p_matrix (h.SCFG ul_id) &&& not32 h.MATRIX_SCFG_SLOT_CYCLE.Msk
  p_matrix.store (h.SCFG ul_id) (ul_reg ||| h.MATRIX_SCFG_SLOT_CYCLE.enc ul_slot_cycle)

/-- Embedding of `matrix_get_slave_slot_cycle` (matrix.c:120). -/
def matrix_get_slave_slot_cycle (h : MatrixHeader) (ul_id : Nat) (p_matrix : Matrix) : Nat :=
  let ul_reg := p_matrix (h.SCFG ul_id) &&& h.MATRIX_SCFG_SLOT_CYCLE.Msk
  ul_reg >>> h.MATRIX_SCFG_SLOT_CYCLE.Pos

/-- Embedding of `matrix_set_slave_default_master_type` (matrix.c:135). -/
def matrix_set_slave_default_master_type (h : MatrixHeader) (ul_id type : Nat)
    (p_matrix : Matrix) : Matrix :=
  let ul_reg := p_matrix (h.SCFG ul_id) &&& not32 h.MATRIX_SCFG_DEFMSTR_TYPE.Msk
  p_matrix.store (h.SCFG ul_id) (ul_reg ||| type % 2 ^ 32)

/-- Embedding of `matrix_get_slave_default_master_type` (matrix.c:151). -/
def matrix_get_slave_default_master_type (h : MatrixHeader) (ul_id : Nat)
    (p_matrix : Matrix) : Nat :=
  let ul_reg := p_matrix (h.SCFG ul_id) &&& h.MATRIX_SCFG_DEFMSTR_TYPE.Msk
  ul_reg

/-- Embedding of `matrix_set_slave_fixed_default_master` (matrix.c:166). -/
def matrix_set_slave_fixed_default_master (h : MatrixHeader) (ul_id ul_fixed_id : Nat)
    (p_matrix : Matrix) : Matrix :=
  let ul_reg := p_matrix (h.SCFG ul_id) &&& not32 h.MATRIX_SCFG_FIXED_DEFMSTR.Msk
  p_matrix.store (h.SCFG ul_id) (ul_reg ||| h.MATRIX_SCFG_FIXED_DEFMSTR.enc ul_fixed_id)

/-- Embedding of `matrix_get_slave_fixed_default_master` (matrix.c:184). -/
def matrix_get_slave_fixed_default_master (h : MatrixHeader) (ul_id : Nat)
    (p_matrix : Matrix) : Nat :=
  let ul_reg := p_matrix (h.SCFG ul_id) &&& h.MATRIX_SCFG_FIXED_DEFMSTR.Msk
  ul_reg >>> h.MATRIX_SCFG_FIXED_DEFMSTR.Pos

/-- Embedding of `matrix_set_slave_arbitration_type` (matrix.c:201). -/
def matrix_set_slave_arbitration_type (h : MatrixHeader) (ul_id type : Nat)
    (p_matrix : Matrix) : Matrix :=
  let ul_reg := p_matrix (h.SCFG ul_id) &&& not32 h.MATRIX_SCFG_ARBT.Msk
  p_matrix.store (h.SCFG ul_id) (ul_reg ||| type % 2 ^ 32)

/-- Embedding of `matrix_get_slave_arbitration_type` (matrix.c:217). -/
def matrix_get_slave_arbitration_type (h : MatrixHeader) (ul_id : Nat)
    (p_matrix : Matrix) : Nat :=
  let ul_reg := p_matrix (h.SCFG ul_id) &&& h.MATRIX_SCFG_ARBT.Msk
  ul_reg

/-- The constant `MATRIX_WPKEY` (matrix.c:356). -/
def MATRIX_WPKEY : Nat := 0x4D4154

/-- Embedding of `matrix_set_writeprotect` (matrix.c:363). -/
def matrix_set_writeprotect (h : MatrixHeader) (ul_enable : Nat) (p_matrix : Matrix) : Matrix :=
  if ul_enable ≠ 0 then
    p_matrix.store h.WPMR (h.MATRIX_WPMR_WPKEY.enc MATRIX_WPKEY ||| h.MATRIX_WPMR_WPEN.Msk)
  else
    p_matrix.store h.WPMR (h.MATRIX_WPMR_WPKEY.enc MATRIX_WPKEY)

/-- Embedding of `matrix_get_writeprotect_status` (matrix.c:380). -/
def matrix_get_writeprotect_status (h : MatrixHeader) (p_matrix : Matrix) : Nat :=
  p_matrix h.WPSR

/-- Value of `(uint32_t)&(p_matrix->MATRIX_PRAS0)`. -/
def MatrixHeader.PRAS0 (h : MatrixHeader) : Nat := (h.MATRIX + h.MATRIX_PRAS0) % 2 ^ 32

/-- Value of `(uint32_t)&(p_matrix->MATRIX_PRAS1)`. -/
def MatrixHeader.PRAS1 (h : MatrixHeader) : Nat := (h.MATRIX + h.MATRIX_PRAS1) % 2 ^ 32

/-- The priority registers are laid out well when `MATRIX_PRAS1` follows `MATRIX_PRAS0` and
the registers of all slaves, one every `MATRIX_PRAS1 - MATRIX_PRAS0` bytes from
`MATRIX_PRAS0`, lie inside the 32-bit address space. -/
def MatrixHeader.WF_PRAS (h : MatrixHeader) : Prop :=
  h.MATRIX_PRAS0 < h.MATRIX_PRAS1 ∧
  h.MATRIX + h.MATRIX_PRAS1 < 2 ^ 32 ∧
  h.MATRIX + h.MATRIX_PRAS0 + h.SCFG_dim * (h.MATRIX_PRAS1 - h.MATRIX_PRAS0) ≤ 2 ^ 32

instance (h : MatrixHeader) : Decidable h.WF_PRAS := by
  unfold MatrixHeader.WF_PRAS; infer_instance

/-- Embedding of `matrix_set_slave_priority` (matrix.c:234), the address computed in
`uint32_t` arithmetic as in the source. -/
def matrix_set_slave_priority (h : MatrixHeader) (ul_id ul_prio : Nat) (p_matrix : Matrix) :
    Matrix :=
  let ul_dlt := h.PRAS1
  let ul_dlt := (ul_dlt + 2 ^ 32 - h.PRAS0) % 2 ^ 32
  let p_PRAS := (h.PRAS0 + (ul_id * ul_dlt) % 2 ^ 32) % 2 ^ 32
  p_matrix.store p_PRAS ul_prio

/-- Embedding of `matrix_get_slave_priority` (matrix.c:256). -/
def matrix_get_slave_priority (h : MatrixHeader) (ul_id : Nat) (p_matrix : Matrix) : Nat :=
  let ul_dlt := h.PRAS1
  let ul_dlt := (ul_dlt + 2 ^ 32 - h.PRAS0) % 2 ^ 32
  let p_PRAS := (h.PRAS0 + (ul_id * ul_dlt) % 2 ^ 32) % 2 ^ 32
  p_matrix p_PRAS

/-- The four `MATRIX_SCFG` getters of one slave, read together. -/
def slave_getters (h : MatrixHeader) (ul_id : Nat) (p_matrix : Matrix) :
    Nat × Nat × Nat × Nat :=
  (matrix_get_slave_slot_cycle h ul_id p_matrix,
   matrix_get_slave_default_master_type h ul_id p_matrix,
   matrix_get_slave_fixed_default_master h ul_id p_matrix,
   matrix_get_slave_arbitration_type h ul_id p_matrix)

/-- Two fields share no bit. -/
def MskDisjoint (f g : Field) : Prop := ∀ i, f.Msk.testBit i = true → g.Msk.testBit i = false

end BusMatrix

namespace AvsApp

/-! ## Data model of `avs_app_capture.c` -/

/-- Result codes of the vendor API: `WICED_SUCCESS`, `WICED_ERROR`, or any other code. -/
inductive wiced_result_t where
  | WICED_SUCCESS
  | WICED_ERROR
  | other (code : Nat)
deriving DecidableEq, Repr

open wiced_result_t

/-- An audio session handle; `none` is `NULL`. -/
abbrev wiced_audio_session_ref := Option Nat

/-- The constants `avs_app_capture.c` takes from `avs_app.h` (not part of the sources). -/
structure AvsHeader where
  AVS_APP_NUM_PCM_BUFS : Nat
  AVS_APP_SAMPLES_PER_PERIOD : Nat
deriving DecidableEq, Repr

/-- The constant `RX_PERIOD_SIZE` (avs_app_capture.c:49). -/
def RX_PERIOD_SIZE (hd : AvsHeader) : Nat := 4 * hd.AVS_APP_SAMPLES_PER_PERIOD

/-- Event bit `AVS_APP_RX_EVENT_SHUTDOWN` (avs_app_capture.c:59). -/
def AVS_APP_RX_EVENT_SHUTDOWN : Nat := 1 <<< 0

/-- Event bit `AVS_APP_RX_EVENT_START` (avs_app_capture.c:60). -/
def AVS_APP_RX_EVENT_START : Nat := 1 <<< 1

/-- Event bit `AVS_APP_RX_EVENT_STOP` (avs_app_capture.c:61). -/
def AVS_APP_RX_EVENT_STOP : Nat := 1 <<< 2

/-- The RTOS timeout `WICED_NO_WAIT`. -/
def WICED_NO_WAIT : Nat := 0

/-- The RTOS timeout `WICED_WAIT_FOREVER`. -/
def WICED_WAIT_FOREVER : Nat := 0xFFFFFFFF

/-- Modelled from the spec: the type `pcm_buf_t` of `avs_app.h` is not part of the sources.
One buffer of the PCM pool, "tagged in-use/free": the in-use tag, the recorded length and the
bytes of the buffer (byte offset to byte value; the capacity is a constant of `avs_app.h` and
is not modelled). -/
structure pcm_buf_t where
  inuse : Nat
  buflen : Nat
  buf : Nat → Nat

/-- Modelled from the spec: the type `avs_app_t` of `avs_app.h` is not part of the sources.
These are the fields the capture code touches: the run/configured/started flags, the session
handle, the thread pointer (`none` for `NULL`, `some ()` for `&app->rx_thread`), the PCM pool
and its two indices. -/
structure avs_app_t where
  rx_run : Bool
  rx_configured : Bool
  rx_started : Bool
  rx_session : wiced_audio_session_ref
  rx_thread_ptr : Option Unit
  pcm_bufs : Nat → pcm_buf_t
  pcm_write_idx : Nat
  pcm_read_idx : Nat

/-- Severity of a log line. -/
inductive LogLevel where
  | WICED_LOG_ERR
  | WICED_LOG_INFO
deriving DecidableEq, Repr

/-- A call into the vendor audio API, the RTOS or the board support code. -/
inductive Call where
  | wiced_audio_init (period_size : Nat)
  | wiced_audio_create_buffer (session : wiced_audio_session_ref)
  | wiced_audio_configure (session : wiced_audio_session_ref)
  | wiced_audio_deinit (session : wiced_audio_session_ref)
  | wiced_audio_start (session : wiced_audio_session_ref)
  | wiced_audio_stop (session : wiced_audio_session_ref)
  | wiced_audio_wait_buffer (session : wiced_audio_session_ref) (size timeout : Nat)
  | wiced_audio_get_buffer (session : wiced_audio_session_ref) (avail : Nat)
  | wiced_audio_release_buffer (session : wiced_audio_session_ref) (size : Nat)
  | wiced_rtos_init_event_flags
  | wiced_rtos_set_event_flags (flags : Nat)
  | wiced_rtos_wait_for_event_flags (timeout : Nat)
  | wiced_rtos_deinit_event_flags
  | wiced_rtos_create_thread_with_stack
  | wiced_rtos_thread_force_awake
  | wiced_rtos_thread_join
  | wiced_rtos_delete_thread
  | platform_audio_device_get_info_by_id
deriving DecidableEq, Repr

/-- The application structure together with the history of what the code did to the
outside: the calls it issued, in order, and the lines it logged. -/
structure Sys where
  app : avs_app_t
  calls : List Call
  log : List (LogLevel × String)

/-- Record a call. -/
def Sys.call (s : Sys) (c : Call) : Sys := { s with calls := s.calls ++ [c] }

/-- Record `wiced_log_msg(WLF_DEF, level, fmt, ...)`. -/
def Sys.wiced_log_msg (s : Sys) (level : LogLevel) (fmt : String) : Sys :=
  { s with log := s.log ++ [(level, fmt)] }

/-- The assignment `app->rx_run = v`. -/
def Sys.set_rx_run (s : Sys) (v : Bool) : Sys := { s with app := { s.app with rx_run := v } }

/-- The assignment `app->rx_configured = v`. -/
def Sys.set_rx_configured (s : Sys) (v : Bool) : Sys :=
  { s with app := { s.app with rx_configured := v } }

/-- The assignment `app->rx_started = v`. -/
def Sys.set_rx_started (s : Sys) (v : Bool) : Sys :=
  { s with app := { s.app with rx_started := v } }

/-- The assignment `app->rx_session = v`. -/
def Sys.set_rx_session (s : Sys) (v : wiced_audio_session_ref) : Sys :=
  { s with app := { s.app with rx_session := v } }

/-- The assignment `app->rx_thread_ptr = v`. -/
def Sys.set_rx_thread_ptr (s : Sys) (v : Option Unit) : Sys :=
  { s with app := { s.app with rx_thread_ptr := v } }

/-- An assignment to the contents of `app->pcm_bufs`. -/
def Sys.set_pcm_bufs (s : Sys) (v : Nat → pcm_buf_t) : Sys :=
  { s with app := { s.app with pcm_bufs := v } }

/-- The assignment `app->pcm_write_idx = v`. -/
def Sys.set_pcm_write_idx (s : Sys) (v : Nat) : Sys :=
  { s with app := { s.app with pcm_write_idx := v } }

/-- The assignment `app->pcm_read_idx = v`. -/
def Sys.set_pcm_read_idx (s : Sys) (v : Nat) : Sys :=
  { s with app := { s.app with pcm_read_idx := v } }

/-- The outside world. Every vendor call answers with a value that the code does not
control; the answer may depend on how many calls were issued before it (the argument of
each function, `s.calls.length` at the call). `wiced_audio_init` also stores a handle
through its `session` argument, given the handle stored there before.
`wiced_audio_get_buffer` answers with a result, the bytes of the hardware buffer (by
offset) and the value it leaves in `avail`. `wiced_rtos_wait_for_event_flags` answers
with the value it leaves in `events`. `wiced_rtos_thread_join` is everything the worker
thread does to the shared state until it has terminated. -/
structure Env where
  wiced_audio_init : Nat → wiced_audio_session_ref → wiced_result_t × wiced_audio_session_ref
  wiced_audio_create_buffer : Nat → wiced_result_t
  wiced_audio_configure : Nat → wiced_result_t
  wiced_audio_deinit : Nat → wiced_result_t
  wiced_audio_start : Nat → wiced_result_t
  wiced_audio_stop : Nat → wiced_result_t
  wiced_audio_wait_buffer : Nat → wiced_result_t
  wiced_audio_get_buffer : Nat → wiced_result_t × (Nat → Nat) × Nat
  wiced_audio_release_buffer : Nat → wiced_result_t
  wiced_rtos_init_event_flags : Nat → wiced_result_t
  wiced_rtos_create_thread_with_stack : Nat → wiced_result_t
  wiced_rtos_wait_for_event_flags : Nat → Nat
  wiced_rtos_thread_join : Sys → Sys

/-! ## The functions of `avs_app_capture.c` -/

/-- The block at the label `exit_with_error` of `initialize_audio_device`
(avs_app_capture.c:128-134). -/
def exit_with_error (env : Env) (result : wiced_result_t) (s0 : Sys) :
    wiced_result_t × Sys := Id.run do
  let mut s := s0
  let r := env.wiced_audio_deinit s.calls.length
  s := s.call (.wiced_audio_deinit s.app.rx_session)
  if r ≠ WICED_SUCCESS then
    s := s.wiced_log_msg .WICED_LOG_ERR "wiced_audio_deinit returns error\n"
  s := s.set_rx_session none
  return (result, s)

/-- Embedding of `initialize_audio_device` (avs_app_capture.c:97), with `session` bound to
`&app->rx_session` as at both call sites. -/
def initialize_audio_device (env : Env) (period_size : Nat) (s0 : Sys) :
    wiced_result_t × Sys := Id.run do
  let mut s := s0
  -- Initialize device.
  let (result, session) := env.wiced_audio_init s.calls.length s.app.rx_session
  s := s.call (.wiced_audio_init period_size)
  s := s.set_rx_session session
  if result ≠ WICED_SUCCESS then
    s := s.wiced_log_msg .WICED_LOG_ERR "wiced_audio_init returns %d\n"
    return (result, s)
  -- Initialize audio buffer.
  let result := env.wiced_audio_create_buffer s.calls.length
  s := s.call (.wiced_audio_create_buffer s.app.rx_session)
  if result ≠ WICED_SUCCESS then
    s := s.wiced_log_msg .WICED_LOG_ERR "wiced_audio_create_buffer returns %d\n"
    return exit_with_error env result s
  -- Configure session.
  let result := env.wiced_audio_configure s.calls.length
  s := s.call (.wiced_audio_configure s.app.rx_session)
  if result ≠ WICED_SUCCESS then
    s := s.wiced_log_msg .WICED_LOG_ERR "wiced_audio_configure returns %d\n"
    return exit_with_error env result s
  return (result, s)

/-- The variables of the copy loop of `process_rx_audio`: the counter `i`, the offsets of
`src` from `buf` and of `dst` from `pcmbuf->buf`, the bytes of `pcmbuf->buf`, and the
offsets of the source bytes read so far. -/
structure CopyState where
  i : Nat
  src : Nat
  dst : Nat
  out : Nat → Nat
  reads : List Nat

/-- The statement `*dst++ = *src++;`. -/
def copy_byte (buf : Nat → Nat) (c : CopyState) : CopyState :=
  { c with
    out := fun k => if k = c.dst then buf c.src else c.out k
    reads := c.reads ++ [c.src]
    dst := c.dst + 1
    src := c.src + 1 }

/-- The body of the copy loop with its increment (avs_app_capture.c:226-231). -/
def copy_body (buf : Nat → Nat) (c : CopyState) : CopyState :=
  let c := copy_byte buf c
  let c := copy_byte buf c
  { c with src := c.src + 2, i := c.i + 4 }

/-- The loop `for (i = 0; i < avail; i += 4) ...` (avs_app_capture.c:226), from any state
of its variables. -/
def copy_loop (avail : Nat) (buf : Nat → Nat) (c : CopyState) : CopyState :=
  if c.i < avail then copy_loop avail buf (copy_body buf c) else c
termination_by avail - c.i
decreasing_by simp [copy_body, copy_byte]; omega

/-- The lazy initialisation and start of `process_rx_audio` (avs_app_capture.c:158-181):
`.ok s` when both steps succeed or were already done, `s` being the state in which the code
goes on to `wiced_audio_wait_buffer`; `.error s` when the function leaves through one of the
two `return WICED_SUCCESS` of these lines, in state `s`. -/
def process_rx_audio_setup (hd : AvsHeader) (env : Env) (s0 : Sys) : Except Sys Sys := Id.run do
  let mut s := s0
  if s.app.rx_configured = false then
    let (result, s1) := initialize_audio_device env (RX_PERIOD_SIZE hd) s
    s := s1
    if result ≠ WICED_SUCCESS then
      s := s.wiced_log_msg .WICED_LOG_ERR "Unable to initialize/configure audio RX (%d)\n"
      return .error s
    s := s.set_rx_configured true
  if s.app.rx_started = false then
    s := s.wiced_log_msg .WICED_LOG_INFO "Start rx audio\n"
    -- Start RX.
    let result := env.wiced_audio_start s.calls.length
    s := s.call (.wiced_audio_start s.app.rx_session)
    if result ≠ WICED_SUCCESS then
      s := s.wiced_log_msg .WICED_LOG_ERR "Start rx failed\n"
      return .error s
    s := s.set_rx_started true
  return .ok s

/-- The capture step of `process_rx_audio` (avs_app_capture.c:183-246): wait for one period,
fetch the hardware buffer, convert it into the PCM slot at `pcm_write_idx` and release it. -/
def process_rx_audio_capture (hd : AvsHeader) (env : Env) (s0 : Sys) :
    wiced_result_t × Sys := Id.run do
  let mut s := s0
  let timeout := 200
  let result := env.wiced_audio_wait_buffer s.calls.length
  s := s.call (.wiced_audio_wait_buffer s.app.rx_session (RX_PERIOD_SIZE hd) timeout)
  if result ≠ WICED_SUCCESS then
    let r := env.wiced_audio_stop s.calls.length
    s := s.call (.wiced_audio_stop s.app.rx_session)
    if r ≠ WICED_SUCCESS then
      s := s.wiced_log_msg .WICED_LOG_ERR "Error stopping audio\n"
    s := s.set_rx_started false
    return (WICED_SUCCESS, s)
  -- Get data from capture audio device
  let avail := RX_PERIOD_SIZE hd % 2 ^ 16
  let (result, buf, avail_out) := env.wiced_audio_get_buffer s.calls.length
  s := s.call (.wiced_audio_get_buffer s.app.rx_session avail)
  let avail := avail_out % 2 ^ 16
  if result ≠ WICED_SUCCESS then
    s := s.wiced_log_msg .WICED_LOG_ERR "wiced_audio_get_buffer() failed\n"
    return (result, s)
  -- Process the audio here.
  let idx := s.app.pcm_write_idx
  let pcmbuf := s.app.pcm_bufs idx
  if pcmbuf.inuse ≠ 0 then
    s := s.wiced_log_msg .WICED_LOG_ERR "PCM buffers full\n"
    return (WICED_ERROR, s)
  -- Copy over the audio data, converting from stereo to mono as we go.
  let c := copy_loop avail buf { i := 0, src := 0, dst := 0, out := pcmbuf.buf, reads := [] }
  let pcmbuf := { pcmbuf with buf := c.out, inuse := 1, buflen := avail / 2 }
  s := s.set_pcm_bufs (fun k => if k = idx then pcmbuf else s.app.pcm_bufs k)
  s := s.set_pcm_write_idx ((s.app.pcm_write_idx + 1) % hd.AVS_APP_NUM_PCM_BUFS)
  -- Release audio buffer back to capture device
  let result := env.wiced_audio_release_buffer s.calls.length
  s := s.call (.wiced_audio_release_buffer s.app.rx_session avail)
  if result ≠ WICED_SUCCESS then
    s := s.wiced_log_msg .WICED_LOG_ERR "wiced_audio_release_buffer() failed\n"
  return (result, s)

/-- Embedding of `process_rx_audio` (avs_app_capture.c:138): the stopped-state test of lines
153-156, then the lazy setup of lines 158-181, then the capture step of lines 183-246. -/
def process_rx_audio (hd : AvsHeader) (env : Env) (s0 : Sys) : wiced_result_t × Sys :=
  -- Are we in a stopped state?
  if s0.app.rx_run = false then
    (WICED_SUCCESS, s0)
  else
    match process_rx_audio_setup hd env s0 with
    | .error s => (WICED_SUCCESS, s)
    | .ok s => process_rx_audio_capture hd env s

/-- The `START` block of the worker loop (avs_app_capture.c:277-309), entered when
`events & AVS_APP_RX_EVENT_START` is set. -/
def rx_thread_START (hd : AvsHeader) (env : Env) (s0 : Sys) : Sys := Id.run do
  let mut s := s0
  if s.app.rx_configured = false then
    -- Initialize the RX audio device.
    let (result, s1) := initialize_audio_device env (RX_PERIOD_SIZE hd) s
    s := s1
    if result ≠ WICED_SUCCESS then
      s := s.wiced_log_msg .WICED_LOG_ERR "Unable to initialize/configure audio RX (%d)\n"
    else
      s := s.set_rx_configured true
  if s.app.rx_started = false then
    let result := env.wiced_audio_start s.calls.length
    s := s.call (.wiced_audio_start s.app.rx_session)
    if result ≠ WICED_SUCCESS then
      s := s.wiced_log_msg .WICED_LOG_ERR "Unable to start audio RX (%d)\n"
    else
      s := s.set_rx_started true
  return s

/-- The `STOP` block of the worker loop (avs_app_capture.c:311-328), entered when
`events & AVS_APP_RX_EVENT_STOP` is set. -/
def rx_thread_STOP (s0 : Sys) : Sys := Id.run do
  let mut s := s0
  if s.app.rx_run then
    if s.app.rx_started then
      s := s.call (.wiced_audio_stop s.app.rx_session)
    if s.app.rx_configured then
      s := s.call (.wiced_audio_deinit s.app.rx_session)
      s := s.set_rx_session none
    s := s.set_rx_started false
    s := s.set_rx_configured false
    s := s.set_rx_run false
  return s

/-- How one pass of the body of `while (WICED_TRUE)` ends: at `break`, or at the end of the
body. -/
inductive LoopStep where
  | brk (s : Sys)
  | next (s : Sys)

/-- One pass of the body of the worker loop (avs_app_capture.c:260-333). -/
def rx_thread_body (hd : AvsHeader) (env : Env) (s0 : Sys) : LoopStep := Id.run do
  let mut s := s0
  let timeout := if s.app.rx_run then WICED_NO_WAIT else WICED_WAIT_FOREVER
  let events := env.wiced_rtos_wait_for_event_flags s.calls.length
  s := s.call (.wiced_rtos_wait_for_event_flags timeout)
  if events &&& AVS_APP_RX_EVENT_SHUTDOWN ≠ 0 then
    return .brk s
  if events &&& AVS_APP_RX_EVENT_START ≠ 0 then
    s := rx_thread_START hd env s
  if events &&& AVS_APP_RX_EVENT_STOP ≠ 0 then
    s := rx_thread_STOP s
  if s.app.rx_run then
    s := (process_rx_audio hd env s).2
  return .next s

/-- The code of the worker after its loop (avs_app_capture.c:336-349). -/
def rx_thread_exit (s0 : Sys) : Sys := Id.run do
  let mut s := s0
  if s.app.rx_started then
    s := s.call (.wiced_audio_stop s.app.rx_session)
  if s.app.rx_configured then
    s := s.call (.wiced_audio_deinit s.app.rx_session)
    s := s.set_rx_session none
  s := s.set_rx_started false
  s := s.set_rx_configured false
  s := s.set_rx_run false
  s := s.wiced_log_msg .WICED_LOG_INFO "End avs app rx mainloop\n"
  return s

/-- Embedding of `avs_app_audio_rx_thread_start` (avs_app_capture.c:353). -/
def avs_app_audio_rx_thread_start (env : Env) (s0 : Sys) : wiced_result_t × Sys := Id.run do
  let mut s := s0
  if s.app.rx_thread_ptr ≠ none then
    s := s.wiced_log_msg .WICED_LOG_ERR "RX thread already active\n"
    return (WICED_ERROR, s)
  -- Create the rx event flags.
  let result := env.wiced_rtos_init_event_flags s.calls.length
  s := s.call .wiced_rtos_init_event_flags
  if result ≠ WICED_SUCCESS then
    s := s.wiced_log_msg .WICED_LOG_ERR "Error initializing RX event flags\n"
    return (result, s)
  -- Initialize the RX audio device.
  s := s.call .platform_audio_device_get_info_by_id
  s := s.wiced_log_msg .WICED_LOG_INFO "Initialize audio device: %s\n"
  -- Create the main RX thread.
  let result := env.wiced_rtos_create_thread_with_stack s.calls.length
  s := s.call .wiced_rtos_create_thread_with_stack
  if result ≠ WICED_SUCCESS then
    s := s.wiced_log_msg .WICED_LOG_ERR "Unable to create RX thread (%d)\n"
    return (result, s)
  s := s.set_rx_thread_ptr (some ())
  return (WICED_SUCCESS, s)

/-- Embedding of `avs_app_audio_rx_thread_stop` (avs_app_capture.c:400). -/
def avs_app_audio_rx_thread_stop (env : Env) (s0 : Sys) : wiced_result_t × Sys := Id.run do
  let mut s := s0
  if s.app.rx_thread_ptr = none then
    s := s.wiced_log_msg .WICED_LOG_ERR "No RX thread active\n"
    return (WICED_ERROR, s)
  s := s.call (.wiced_rtos_set_event_flags AVS_APP_RX_EVENT_SHUTDOWN)
  s := s.call .wiced_rtos_thread_force_awake
  s := env.wiced_rtos_thread_join (s.call .wiced_rtos_thread_join)
  s := s.call .wiced_rtos_delete_thread
  s := s.set_rx_thread_ptr none
  if s.app.rx_session ≠ none then
    s := s.call (.wiced_audio_deinit s.app.rx_session)
    s := s.set_rx_session none
  s := s.call .wiced_rtos_deinit_event_flags
  return (WICED_SUCCESS, s)

/-- The effect of `memset(app->pcm_bufs, 0, sizeof(app->pcm_bufs))`. -/
def pcm_bufs_zero : Nat → pcm_buf_t := fun _ => { inuse := 0, buflen := 0, buf := fun _ => 0 }

/-- Embedding of `avs_app_audio_rx_capture_enable` (avs_app_capture.c:428). -/
def avs_app_audio_rx_capture_enable (enable : Bool) (s0 : Sys) :
    wiced_result_t × Sys := Id.run do
  let mut s := s0
  if s.app.rx_thread_ptr = none then
    s := s.wiced_log_msg .WICED_LOG_ERR "No RX thread active\n"
    return (WICED_ERROR, s)
  if enable then
    s := s.set_pcm_bufs pcm_bufs_zero
    s := s.set_pcm_write_idx 0
    s := s.set_pcm_read_idx 0
    -- Set rx_run now. Other parts of the app look at that flag to determine
    -- whether audio capture is (or should be) active.
    s := s.set_rx_run true
    s := s.call (.wiced_rtos_set_event_flags AVS_APP_RX_EVENT_START)
  else
    s := s.call (.wiced_rtos_set_event_flags AVS_APP_RX_EVENT_STOP)
  return (WICED_SUCCESS, s)

/-- Number of `wiced_audio_init` calls in a call history. -/
def init_calls (cs : List Call) : Nat :=
  cs.countP (fun c => match c with
    | .wiced_audio_init _ => true
    | _ => false)

/-! ## Concrete inputs -/

/-- An instance of the constants of `avs_app.h`: four PCM slots, periods of two frames. -/
def hdr4 : AvsHeader := { AVS_APP_NUM_PCM_BUFS := 4, AVS_APP_SAMPLES_PER_PERIOD := 2 }

/-- A world in which every vendor call succeeds: `wiced_audio_init` hands out session 1,
every hardware buffer holds 8 bytes (two stereo frames) with byte `k` equal to `10 + k`, no
event is ever pending, and the worker does nothing while it is joined. -/
def env_ok : Env where
  wiced_audio_init := fun _ _ => (WICED_SUCCESS, some 1)
  wiced_audio_create_buffer := fun _ => WICED_SUCCESS
  wiced_audio_configure := fun _ => WICED_SUCCESS
  wiced_audio_deinit := fun _ => WICED_SUCCESS
  wiced_audio_start := fun _ => WICED_SUCCESS
  wiced_audio_stop := fun _ => WICED_SUCCESS
  wiced_audio_wait_buffer := fun _ => WICED_SUCCESS
  wiced_audio_get_buffer := fun _ => (WICED_SUCCESS, fun k => 10 + k, 8)
  wiced_audio_release_buffer := fun _ => WICED_SUCCESS
  wiced_rtos_init_event_flags := fun _ => WICED_SUCCESS
  wiced_rtos_create_thread_with_stack := fun _ => WICED_SUCCESS
  wiced_rtos_wait_for_event_flags := fun _ => 0
  wiced_rtos_thread_join := fun s => s

/-- The application before the worker thread is created: all flags clear, no session, no
thread, an empty PCM pool. -/
def sys_idle : Sys where
  app := { rx_run := false, rx_configured := false, rx_started := false, rx_session := none,
           rx_thread_ptr := none, pcm_bufs := pcm_bufs_zero, pcm_write_idx := 0,
           pcm_read_idx := 0 }
  calls := []
  log := []

/-- The application with the thread created and capture not yet enabled. -/
def sys_thread : Sys := sys_idle.set_rx_thread_ptr (some ())

/-- The application while capturing: thread created, session 1 configured and started, an
empty PCM pool. -/
def sys_capturing : Sys :=
  ((((sys_idle.set_rx_thread_ptr (some ())).set_rx_session (some 1)).set_rx_run true
    ).set_rx_configured true).set_rx_started true

/-- The application with every PCM slot still in use, after a wait for a period has timed
out: running and configured, the stream stopped. -/
def sys_full_stopped : Sys :=
  (sys_capturing.set_pcm_bufs (fun _ => { inuse := 1, buflen := 4, buf := fun _ => 0 })
    ).set_rx_started false

/-- The world `env_ok` in which `wiced_audio_init` fails, leaving the handle as it was, and
every wait for events returns `START`. -/
def env_init_fails : Env :=
  { env_ok with
    wiced_audio_init := fun _ session => (WICED_ERROR, session)
    wiced_rtos_wait_for_event_flags := fun _ => AVS_APP_RX_EVENT_START }

/-- The world `env_ok` in which every wait for a period of samples times out. -/
def env_wait_fails : Env :=
  { env_ok with wiced_audio_wait_buffer := fun _ => .other 2 }

/-- The world `env_ok` in which every wait for events returns `STOP`. -/
def env_stop : Env :=
  { env_ok with wiced_rtos_wait_for_event_flags := fun _ => AVS_APP_RX_EVENT_STOP }

/-- The state of the application at the end of a pass of the loop body. -/
def LoopStep.state : LoopStep → Sys
  | .brk s => s
  | .next s => s

end AvsApp

/-! ## Bit-level facts about the header constants -/

namespace BusMatrix

theorem testBit_not32 (x i : Nat) :
    (not32 x).testBit i = (decide (i < 32) && !x.testBit i) := by
  unfold not32
  rw [Nat.testBit_xor, Nat.testBit_two_pow_sub_one, Nat.testBit_mod_two_pow]
  by_cases h : i < 32 <;> simp [h]

theorem testBit_Msk (f : Field) (i : Nat) :
    f.Msk.testBit i = (decide (f.Pos ≤ i) && decide (i < f.Pos + f.Width)) := by
  unfold Field.Msk
  rw [Nat.testBit_shiftLeft, Nat.testBit_two_pow_sub_one]
  by_cases h : f.Pos ≤ i
  · simp [h]; omega
  · simp [h]

theorem testBit_enc (f : Field) (v i : Nat) :
    (f.enc v).testBit i =
      (decide (f.Pos ≤ i) && decide (i < f.Pos + f.Width) && decide (i < 32)
        && v.testBit (i - f.Pos)) := by
  unfold Field.enc
  rw [Nat.testBit_and, testBit_Msk, Nat.testBit_mod_two_pow, Nat.testBit_shiftLeft]
  by_cases h : f.Pos ≤ i <;> by_cases h2 : i < 32 <;> simp [h, h2]

/-- A bit of a value below `2 ^ w` is clear from position `w` on. -/
theorem testBit_of_lt_two_pow {v w i : Nat} (hv : v < 2 ^ w) (hi : w ≤ i) :
    v.testBit i = false :=
  Nat.testBit_lt_two_pow (lt_of_lt_of_le hv (Nat.pow_le_pow_right (by decide) hi))

/-- A value contained in a mask has no bit outside the mask. -/
theorem testBit_of_and_eq {v m : Nat} (hv : v &&& m = v) (i : Nat) (hm : m.testBit i = false) :
    v.testBit i = false := by
  rw [← hv, Nat.testBit_and, hm]; simp

/-- Reading a pre-encoded field back after the read-modify-write of that field. -/
theorem field_read_after_write_enum (f : Field) (hf : f.Pos + f.Width ≤ 32) (old v : Nat)
    (hv : v &&& f.Msk = v) :
    (((old &&& not32 f.Msk) ||| v % 2 ^ 32) % 2 ^ 32) &&& f.Msk = v := by
  apply Nat.eq_of_testBit_eq
  intro i
  simp only [Nat.testBit_and, Nat.testBit_or, Nat.testBit_mod_two_pow, testBit_not32]
  by_cases hm : f.Msk.testBit i = true
  · have h32 : i < 32 := by
      rw [testBit_Msk] at hm
      simp at hm
      omega
    simp [hm, h32]
  · have hm2 : f.Msk.testBit i = false := by simpa using hm
    rw [testBit_of_and_eq hv i hm2, hm2]
    simp

/-- Reading a shifted field back after the read-modify-write of that field. -/
theorem field_read_after_write_shift (f : Field) (hf : f.Pos + f.Width ≤ 32) (old v : Nat)
    (hv : v < 2 ^ f.Width) :
    ((((old &&& not32 f.Msk) ||| f.enc v) % 2 ^ 32) &&& f.Msk) >>> f.Pos = v := by
  apply Nat.eq_of_testBit_eq
  intro j
  simp only [Nat.testBit_shiftRight, Nat.testBit_and, Nat.testBit_or, Nat.testBit_mod_two_pow,
    testBit_not32, testBit_Msk, testBit_enc]
  by_cases hj : j < f.Width
  · have h1 : f.Pos + j < 32 := by omega
    have h2 : f.Pos + j < f.Pos + f.Width := by omega
    simp [h1, h2]
  · have h2 : ¬ (f.Pos + j < f.Pos + f.Width) := by omega
    rw [testBit_of_lt_two_pow hv (by omega : f.Width ≤ j)]
    simp [h2]

theorem store_same (p_matrix : Matrix) (addr value : Nat) :
    p_matrix.store addr value addr = value % 2 ^ 32 := by
  simp [Matrix.store]

theorem store_other (p_matrix : Matrix) (addr value a : Nat) (h : a ≠ addr) :
    p_matrix.store addr value a = p_matrix a := by
  simp [Matrix.store, h]

/-- The bits of an encoded field value lie inside the field mask. -/
theorem enc_sub_Msk (f : Field) (v i : Nat) (hi : (f.enc v).testBit i = true) :
    f.Msk.testBit i = true := by
  unfold Field.enc at hi
  rw [Nat.testBit_and] at hi
  simp at hi
  exact hi.1

/-- The bits of a pre-encoded value contained in the mask lie inside the field mask. -/
theorem cast_sub_Msk (f : Field) (v : Nat) (hv : v &&& f.Msk = v) (i : Nat)
    (hi : (v % 2 ^ 32).testBit i = true) : f.Msk.testBit i = true := by
  rw [Nat.testBit_mod_two_pow] at hi
  simp at hi
  by_contra hc
  have hc2 : f.Msk.testBit i = false := by simpa using hc
  rw [testBit_of_and_eq hv i hc2] at hi
  exact absurd hi.2 (by simp)

/-- The read-modify-write of one field changes no bit outside the field mask and no other
register. -/
theorem store_rmw_changes (p_matrix : Matrix) (hp : p_matrix.WF) (f : Field)
    (addr e : Nat) (he : ∀ i, e.testBit i = true → f.Msk.testBit i = true) (a i : Nat)
    (hne : (p_matrix.store addr ((p_matrix addr &&& not32 f.Msk) ||| e) a).testBit i
      ≠ (p_matrix a).testBit i) :
    a = addr ∧ f.Msk.testBit i = true := by
  by_cases ha : a = addr
  · subst ha
    refine ⟨rfl, ?_⟩
    by_contra hc
    have hc2 : f.Msk.testBit i = false := by simpa using hc
    have he2 : e.testBit i = false := by
      by_contra hx
      have := he i (by simpa using hx)
      rw [hc2] at this
      exact absurd this (by simp)
    apply hne
    rw [store_same, Nat.testBit_mod_two_pow, Nat.testBit_or, Nat.testBit_and, testBit_not32,
      hc2, he2]
    by_cases h32 : i < 32
    · simp [h32]
    · have : (p_matrix a).testBit i = false :=
        testBit_of_lt_two_pow (hp a) (by omega)
      simp [h32, this]
  · exact absurd (by rw [store_other _ _ _ _ ha]) hne

theorem MskDisjoint_of_le (f g : Field) (h : f.Pos + f.Width ≤ g.Pos) :
    MskDisjoint f g ∧ MskDisjoint g f := by
  constructor
  · intro i hi
    rw [testBit_Msk] at hi ⊢
    simp at hi ⊢
    omega
  · intro i hi
    rw [testBit_Msk] at hi ⊢
    simp at hi ⊢
    omega

/-- After the read-modify-write of field `f`, any disjoint field `g` of any register reads
as before. -/
theorem store_rmw_and_disjoint (p_matrix : Matrix) (hp : p_matrix.WF) (f g : Field)
    (hfg : MskDisjoint f g)
    (addr e : Nat) (he : ∀ i, e.testBit i = true → f.Msk.testBit i = true) (a : Nat) :
    p_matrix.store addr ((p_matrix addr &&& not32 f.Msk) ||| e) a &&& g.Msk
      = p_matrix a &&& g.Msk := by
  apply Nat.eq_of_testBit_eq
  intro i
  rw [Nat.testBit_and, Nat.testBit_and]
  by_cases hg : g.Msk.testBit i = true
  · by_cases hne : (p_matrix.store addr ((p_matrix addr &&& not32 f.Msk) ||| e) a).testBit i
        = (p_matrix a).testBit i
    · rw [hne]
    · have := (store_rmw_changes p_matrix hp f addr e he a i hne).2
      rw [hfg i this] at hg
      exact absurd hg (by simp)
  · have hg2 : g.Msk.testBit i = false := by simpa using hg
    simp [hg2]

theorem SCFG_ne (h : MatrixHeader) (a b : Nat) (hab : a ≠ b) : h.SCFG a ≠ h.SCFG b := by
  unfold MatrixHeader.SCFG; omega

theorem MCFG_ne_SCFG (h : MatrixHeader) (hh : h.WF) (m : Nat) (hm : m < h.MCFG_dim) (b : Nat) :
    h.MCFG m ≠ h.SCFG b := by
  obtain ⟨-, -, -, -, -, w6, -⟩ := hh
  unfold MatrixHeader.MCFG MatrixHeader.SCFG; omega

/-- A store to `MATRIX_SCFG[ul_id]` is not seen by the getters of another slave nor by the
getter of a master. -/
theorem store_SCFG_frame (h : MatrixHeader) (hh : h.WF) (p_matrix : Matrix)
    (ul_id value : Nat) :
    (∀ id2, id2 ≠ ul_id →
      slave_getters h id2 (p_matrix.store (h.SCFG ul_id) value) = slave_getters h id2 p_matrix) ∧
    (∀ m, m < h.MCFG_dim →
      matrix_get_master_burst_type h m (p_matrix.store (h.SCFG ul_id) value)
        = matrix_get_master_burst_type h m p_matrix) := by
  constructor
  · intro id2 hid
    simp only [slave_getters, matrix_get_slave_slot_cycle, matrix_get_slave_default_master_type,
      matrix_get_slave_fixed_default_master, matrix_get_slave_arbitration_type,
      store_other _ _ _ _ (SCFG_ne h id2 ul_id hid)]
  · intro m hm
    simp only [matrix_get_master_burst_type, store_other _ _ _ _ (MCFG_ne_SCFG h hh m hm ul_id)]

end BusMatrix

/-! ## Projections of the state after an assignment, a call or a log line -/

namespace AvsApp

open wiced_result_t

@[simp]
theorem Sys.set_rx_run_proj (s : Sys) (v) :
    (s.set_rx_run v).calls = s.calls ∧
    (s.set_rx_run v).log = s.log ∧
    (s.set_rx_run v).app.rx_run = v ∧
    (s.set_rx_run v).app.rx_configured = s.app.rx_configured ∧
    (s.set_rx_run v).app.rx_started = s.app.rx_started ∧
    (s.set_rx_run v).app.rx_session = s.app.rx_session ∧
    (s.set_rx_run v).app.rx_thread_ptr = s.app.rx_thread_ptr ∧
    (s.set_rx_run v).app.pcm_bufs = s.app.pcm_bufs ∧
    (s.set_rx_run v).app.pcm_write_idx = s.app.pcm_write_idx ∧
    (s.set_rx_run v).app.pcm_read_idx = s.app.pcm_read_idx :=
  ⟨rfl, rfl, rfl, rfl, rfl, rfl, rfl, rfl, rfl, rfl⟩

@[simp]
theorem Sys.set_rx_configured_proj (s : Sys) (v) :
    (s.set_rx_configured v).calls = s.calls ∧
    (s.set_rx_configured v).log = s.log ∧
    (s.set_rx_configured v).app.rx_run = s.app.rx_run ∧
    (s.set_rx_configured v).app.rx_configured = v ∧
    (s.set_rx_configured v).app.rx_started = s.app.rx_started ∧
    (s.set_rx_configured v).app.rx_session = s.app.rx_session ∧
    (s.set_rx_configured v).app.rx_thread_ptr = s.app.rx_thread_ptr ∧
    (s.set_rx_configured v).app.pcm_bufs = s.app.pcm_bufs ∧
    (s.set_rx_configured v).app.pcm_write_idx = s.app.pcm_write_idx ∧
    (s.set_rx_configured v).app.pcm_read_idx = s.app.pcm_read_idx :=
  ⟨rfl, rfl, rfl, rfl, rfl, rfl, rfl, rfl, rfl, rfl⟩

@[simp]
theorem Sys.set_rx_started_proj (s : Sys) (v) :
    (s.set_rx_started v).calls = s.calls ∧
    (s.set_rx_started v).log = s.log ∧
    (s.set_rx_started v).app.rx_run = s.app.rx_run ∧
    (s.set_rx_started v).app.rx_configured = s.app.rx_configured ∧
    (s.set_rx_started v).app.rx_started = v ∧
    (s.set_rx_started v).app.rx_session = s.app.rx_session ∧
    (s.set_rx_started v).app.rx_thread_ptr = s.app.rx_thread_ptr ∧
    (s.set_rx_started v).app.pcm_bufs = s.app.pcm_bufs ∧
    (s.set_rx_started v).app.pcm_write_idx = s.app.pcm_write_idx ∧
    (s.set_rx_started v).app.pcm_read_idx = s.app.pcm_read_idx :=
  ⟨rfl, rfl, rfl, rfl, rfl, rfl, rfl, rfl, rfl, rfl⟩

@[simp]
theorem Sys.set_rx_session_proj (s : Sys) (v) :
    (s.set_rx_session v).calls = s.calls ∧
    (s.set_rx_session v).log = s.log ∧
    (s.set_rx_session v).app.rx_run = s.app.rx_run ∧
    (s.set_rx_session v).app.rx_configured = s.app.rx_configured ∧
    (s.set_rx_session v).app.rx_started = s.app.rx_started ∧
    (s.set_rx_session v).app.rx_session = v ∧
    (s.set_rx_session v).app.rx_thread_ptr = s.app.rx_thread_ptr ∧
    (s.set_rx_session v).app.pcm_bufs = s.app.pcm_bufs ∧
    (s.set_rx_session v).app.pcm_write_idx = s.app.pcm_write_idx ∧
    (s.set_rx_session v).app.pcm_read_idx = s.app.pcm_read_idx :=
  ⟨rfl, rfl, rfl, rfl, rfl, rfl, rfl, rfl, rfl, rfl⟩

@[simp]
theorem Sys.set_rx_thread_ptr_proj (s : Sys) (v) :
    (s.set_rx_thread_ptr v).calls = s.calls ∧
    (s.set_rx_thread_ptr v).log = s.log ∧
    (s.set_rx_thread_ptr v).app.rx_run = s.app.rx_run ∧
    (s.set_rx_thread_ptr v).app.rx_configured = s.app.rx_configured ∧
    (s.set_rx_thread_ptr v).app.rx_started = s.app.rx_started ∧
    (s.set_rx_thread_ptr v).app.rx_session = s.app.rx_session ∧
    (s.set_rx_thread_ptr v).app.rx_thread_ptr = v ∧
    (s.set_rx_thread_ptr v).app.pcm_bufs = s.app.pcm_bufs ∧
    (s.set_rx_thread_ptr v).app.pcm_write_idx = s.app.pcm_write_idx ∧
    (s.set_rx_thread_ptr v).app.pcm_read_idx = s.app.pcm_read_idx :=
  ⟨rfl, rfl, rfl, rfl, rfl, rfl, rfl, rfl, rfl, rfl⟩

@[simp]
theorem Sys.set_pcm_bufs_proj (s : Sys) (v) :
    (s.set_pcm_bufs v).calls = s.calls ∧
    (s.set_pcm_bufs v).log = s.log ∧
    (s.set_pcm_bufs v).app.rx_run = s.app.rx_run ∧
    (s.set_pcm_bufs v).app.rx_configured = s.app.rx_configured ∧
    (s.set_pcm_bufs v).app.rx_started = s.app.rx_started ∧
    (s.set_pcm_bufs v).app.rx_session = s.app.rx_session ∧
    (s.set_pcm_bufs v).app.rx_thread_ptr = s.app.rx_thread_ptr ∧
    (s.set_pcm_bufs v).app.pcm_bufs = v ∧
    (s.set_pcm_bufs v).app.pcm_write_idx = s.app.pcm_write_idx ∧
    (s.set_pcm_bufs v).app.pcm_read_idx = s.app.pcm_read_idx :=
  ⟨rfl, rfl, rfl, rfl, rfl, rfl, rfl, rfl, rfl, rfl⟩

@[simp]
theorem Sys.set_pcm_write_idx_proj (s : Sys) (v) :
    (s.set_pcm_write_idx v).calls = s.calls ∧
    (s.set_pcm_write_idx v).log = s.log ∧
    (s.set_pcm_write_idx v).app.rx_run = s.app.rx_run ∧
    (s.set_pcm_write_idx v).app.rx_configured = s.app.rx_configured ∧
    (s.set_pcm_write_idx v).app.rx_started = s.app.rx_started ∧
    (s.set_pcm_write_idx v).app.rx_session = s.app.rx_session ∧
    (s.set_pcm_write_idx v).app.rx_thread_ptr = s.app.rx_thread_ptr ∧
    (s.set_pcm_write_idx v).app.pcm_bufs = s.app.pcm_bufs ∧
    (s.set_pcm_write_idx v).app.pcm_write_idx = v ∧
    (s.set_pcm_write_idx v).app.pcm_read_idx = s.app.pcm_read_idx :=
  ⟨rfl, rfl, rfl, rfl, rfl, rfl, rfl, rfl, rfl, rfl⟩

@[simp]
theorem Sys.set_pcm_read_idx_proj (s : Sys) (v) :
    (s.set_pcm_read_idx v).calls = s.calls ∧
    (s.set_pcm_read_idx v).log = s.log ∧
    (s.set_pcm_read_idx v).app.rx_run = s.app.rx_run ∧
    (s.set_pcm_read_idx v).app.rx_configured = s.app.rx_configured ∧
    (s.set_pcm_read_idx v).app.rx_started = s.app.rx_started ∧
    (s.set_pcm_read_idx v).app.rx_session = s.app.rx_session ∧
    (s.set_pcm_read_idx v).app.rx_thread_ptr = s.app.rx_thread_ptr ∧
    (s.set_pcm_read_idx v).app.pcm_bufs = s.app.pcm_bufs ∧
    (s.set_pcm_read_idx v).app.pcm_write_idx = s.app.pcm_write_idx ∧
    (s.set_pcm_read_idx v).app.pcm_read_idx = v :=
  ⟨rfl, rfl, rfl, rfl, rfl, rfl, rfl, rfl, rfl, rfl⟩

@[simp]
theorem Sys.call_proj (s : Sys) (c : Call) :
    (s.call c).calls = s.calls ++ [c] ∧ (s.call c).log = s.log ∧ (s.call c).app = s.app :=
  ⟨rfl, rfl, rfl⟩

@[simp]
theorem Sys.wiced_log_msg_proj (s : Sys) (l : LogLevel) (m : String) :
    (s.wiced_log_msg l m).calls = s.calls ∧ (s.wiced_log_msg l m).log = s.log ++ [(l, m)] ∧
    (s.wiced_log_msg l m).app = s.app :=
  ⟨rfl, rfl, rfl⟩

end AvsApp

/-! ## Facts about the capture code -/

namespace AvsApp

open wiced_result_t

/-- The label block `exit_with_error` touches only the session handle. -/
theorem exit_with_error_frame (env : Env) (result : wiced_result_t) (s : Sys) :
    (exit_with_error env result s).1 = result ∧
    (exit_with_error env result s).2.app.rx_session = none ∧
    (exit_with_error env result s).2.app.rx_run = s.app.rx_run ∧
    (exit_with_error env result s).2.app.rx_configured = s.app.rx_configured ∧
    (exit_with_error env result s).2.app.rx_started = s.app.rx_started ∧
    (exit_with_error env result s).2.app.rx_thread_ptr = s.app.rx_thread_ptr ∧
    (exit_with_error env result s).2.app.pcm_bufs = s.app.pcm_bufs ∧
    (exit_with_error env result s).2.app.pcm_write_idx = s.app.pcm_write_idx ∧
    (exit_with_error env result s).2.app.pcm_read_idx = s.app.pcm_read_idx := by
  unfold exit_with_error
  simp only [Id.run, bind, pure]
  split_ifs <;> simp

/-- `initialize_audio_device` touches only the session handle. -/
theorem initialize_audio_device_frame (env : Env) (period_size : Nat) (s : Sys) :
    (initialize_audio_device env period_size s).2.app.rx_run = s.app.rx_run ∧
    (initialize_audio_device env period_size s).2.app.rx_configured = s.app.rx_configured ∧
    (initialize_audio_device env period_size s).2.app.rx_started = s.app.rx_started ∧
    (initialize_audio_device env period_size s).2.app.rx_thread_ptr = s.app.rx_thread_ptr ∧
    (initialize_audio_device env period_size s).2.app.pcm_bufs = s.app.pcm_bufs ∧
    (initialize_audio_device env period_size s).2.app.pcm_write_idx = s.app.pcm_write_idx ∧
    (initialize_audio_device env period_size s).2.app.pcm_read_idx = s.app.pcm_read_idx := by
  unfold initialize_audio_device
  simp only [Id.run, bind, pure]
  split_ifs <;> simp [exit_with_error_frame]

/-- The lazy setup changes none of the PCM pool, the indices, `rx_run` and `rx_thread_ptr`;
when it falls through, both `rx_configured` and `rx_started` are set. -/
theorem process_rx_audio_setup_frame (hd : AvsHeader) (env : Env) (s : Sys) :
    (∀ s1, process_rx_audio_setup hd env s = .ok s1 →
      s1.app.rx_configured = true ∧ s1.app.rx_started = true ∧
      s1.app.rx_run = s.app.rx_run ∧ s1.app.rx_thread_ptr = s.app.rx_thread_ptr ∧
      s1.app.pcm_bufs = s.app.pcm_bufs ∧ s1.app.pcm_write_idx = s.app.pcm_write_idx ∧
      s1.app.pcm_read_idx = s.app.pcm_read_idx) ∧
    (∀ s1, process_rx_audio_setup hd env s = .error s1 →
      s1.app.rx_run = s.app.rx_run ∧ s1.app.rx_thread_ptr = s.app.rx_thread_ptr ∧
      s1.app.pcm_bufs = s.app.pcm_bufs ∧ s1.app.pcm_write_idx = s.app.pcm_write_idx ∧
      s1.app.pcm_read_idx = s.app.pcm_read_idx) := by
  have hf := initialize_audio_device_frame env (RX_PERIOD_SIZE hd) s
  unfold process_rx_audio_setup
  simp only [Id.run, bind, pure]
  constructor
  · intro s1 h
    split_ifs at h <;> simp at h <;> subst h <;> simp_all
  · intro s1 h
    split_ifs at h <;> simp at h <;> subst h <;> simp_all

/-- In the steady state (configured and started) the lazy setup does nothing. -/
theorem process_rx_audio_setup_steady (hd : AvsHeader) (env : Env) (s : Sys)
    (hc : s.app.rx_configured = true) (hs : s.app.rx_started = true) :
    process_rx_audio_setup hd env s = .ok s := by
  unfold process_rx_audio_setup
  simp [Id.run, hc, hs]

/-- The copy loop runs its body `(avail - i + 3) / 4` times. -/
theorem copy_loop_eq_iterate (avail : Nat) (buf : Nat → Nat) (c : CopyState) :
    copy_loop avail buf c = (copy_body buf)^[(avail - c.i + 3) / 4] c := by
  induction c using copy_loop.induct avail buf with
  | case1 c h ih =>
    rw [copy_loop, if_pos h, ih]
    have : (avail - c.i + 3) / 4 = (avail - (copy_body buf c).i + 3) / 4 + 1 := by
      simp [copy_body, copy_byte]; omega
    rw [this, Function.iterate_succ_apply]
  | case2 c h =>
    rw [copy_loop, if_neg h]
    have : (avail - c.i + 3) / 4 = 0 := by omega
    rw [this]; rfl

/-- The variables of the copy loop after `n` passes of its body. -/
theorem copy_body_iterate (buf : Nat → Nat) (n : Nat) (c : CopyState) :
    ((copy_body buf)^[n] c).i = c.i + 4 * n ∧
    ((copy_body buf)^[n] c).src = c.src + 4 * n ∧
    ((copy_body buf)^[n] c).dst = c.dst + 2 * n ∧
    (∀ k, ((copy_body buf)^[n] c).out k =
      if c.dst ≤ k ∧ k < c.dst + 2 * n then
        buf (c.src + 4 * ((k - c.dst) / 2) + (k - c.dst) % 2)
      else c.out k) := by
  induction n with
  | zero =>
    simp only [Function.iterate_zero, id_eq, Nat.mul_zero, Nat.add_zero, true_and]
    intro k
    have : ¬ (c.dst ≤ k ∧ k < c.dst) := by omega
    rw [if_neg this]
  | succ n ih =>
    obtain ⟨h1, h2, h3, h4⟩ := ih
    rw [Function.iterate_succ_apply']
    refine ⟨?_, ?_, ?_, ?_⟩
    · simp [copy_body, copy_byte, h1]; omega
    · simp [copy_body, copy_byte, h2]; omega
    · simp [copy_body, copy_byte, h3]; omega
    · intro k
      simp only [copy_body, copy_byte, h2, h3, h4]
      by_cases e1 : k = c.dst + 2 * n + 1
      · subst e1
        have a1 : (c.dst + 2 * n + 1 - c.dst) / 2 = n := by omega
        have a2 : (c.dst + 2 * n + 1 - c.dst) % 2 = 1 := by omega
        have a3 : c.dst ≤ c.dst + 2 * n + 1 ∧ c.dst + 2 * n + 1 < c.dst + 2 * (n + 1) := by
          omega
        simp only [if_pos a3, a1, a2]
        simp
      · by_cases e2 : k = c.dst + 2 * n
        · subst e2
          have a1 : (c.dst + 2 * n - c.dst) / 2 = n := by omega
          have a2 : (c.dst + 2 * n - c.dst) % 2 = 0 := by omega
          have a3 : c.dst ≤ c.dst + 2 * n ∧ c.dst + 2 * n < c.dst + 2 * (n + 1) := by omega
          simp only [if_pos a3, a1, a2]
          simp
        · have a3 : (c.dst ≤ k ∧ k < c.dst + 2 * (n + 1)) ↔ (c.dst ≤ k ∧ k < c.dst + 2 * n) := by
            omega
          simp only [a3]
          simp [e1, e2]

/-- The capture step when wait and get-buffer succeed and the slot at the write index is in
use: the frame is dropped. -/
theorem process_rx_audio_capture_full (hd : AvsHeader) (env : Env) (s : Sys)
    (buf : Nat → Nat) (avail_out : Nat)
    (hwait : env.wiced_audio_wait_buffer s.calls.length = WICED_SUCCESS)
    (hget : env.wiced_audio_get_buffer (s.calls.length + 1) = (WICED_SUCCESS, buf, avail_out))
    (hinuse : (s.app.pcm_bufs s.app.pcm_write_idx).inuse ≠ 0) :
    process_rx_audio_capture hd env s =
      (WICED_ERROR,
        ((s.call (.wiced_audio_wait_buffer s.app.rx_session (RX_PERIOD_SIZE hd) 200)).call
          (.wiced_audio_get_buffer s.app.rx_session (RX_PERIOD_SIZE hd % 2 ^ 16))).wiced_log_msg
            .WICED_LOG_ERR "PCM buffers full\n") := by
  unfold process_rx_audio_capture
  simp [Id.run, hwait, hget, hinuse]

/-- The capture step when wait and get-buffer succeed and the slot at the write index is
free: the result and the state it leaves. -/
theorem process_rx_audio_capture_free (hd : AvsHeader) (env : Env) (s : Sys)
    (buf : Nat → Nat) (avail_out : Nat)
    (hwait : env.wiced_audio_wait_buffer s.calls.length = WICED_SUCCESS)
    (hget : env.wiced_audio_get_buffer (s.calls.length + 1) = (WICED_SUCCESS, buf, avail_out))
    (hfree : (s.app.pcm_bufs s.app.pcm_write_idx).inuse = 0) :
    (process_rx_audio_capture hd env s).1 = env.wiced_audio_release_buffer (s.calls.length + 2) ∧
    (process_rx_audio_capture hd env s).2.calls = s.calls ++
      [.wiced_audio_wait_buffer s.app.rx_session (RX_PERIOD_SIZE hd) 200,
       .wiced_audio_get_buffer s.app.rx_session (RX_PERIOD_SIZE hd % 2 ^ 16),
       .wiced_audio_release_buffer s.app.rx_session (avail_out % 2 ^ 16)] ∧
    (process_rx_audio_capture hd env s).2.app.pcm_write_idx
      = (s.app.pcm_write_idx + 1) % hd.AVS_APP_NUM_PCM_BUFS ∧
    (process_rx_audio_capture hd env s).2.app.pcm_read_idx = s.app.pcm_read_idx ∧
    (process_rx_audio_capture hd env s).2.app.pcm_bufs =
      (fun k => if k = s.app.pcm_write_idx then
          { inuse := 1, buflen := avail_out % 2 ^ 16 / 2,
            buf := (copy_loop (avail_out % 2 ^ 16) buf
              { i := 0, src := 0, dst := 0, out := (s.app.pcm_bufs s.app.pcm_write_idx).buf,
                reads := [] }).out }
        else s.app.pcm_bufs k) ∧
    (process_rx_audio_capture hd env s).2.app.rx_run = s.app.rx_run ∧
    (process_rx_audio_capture hd env s).2.app.rx_configured = s.app.rx_configured ∧
    (process_rx_audio_capture hd env s).2.app.rx_started = s.app.rx_started ∧
    (process_rx_audio_capture hd env s).2.app.rx_session = s.app.rx_session ∧
    (process_rx_audio_capture hd env s).2.app.rx_thread_ptr = s.app.rx_thread_ptr := by
  unfold process_rx_audio_capture
  simp only [Id.run, bind, pure]
  simp only [Sys.call_proj, List.length_append, List.length_singleton, hwait, hget, hfree]
  split_ifs <;> simp_all

theorem init_calls_append (l : List Call) (c : Call) :
    init_calls (l ++ [c]) = init_calls l + init_calls [c] := by
  simp [init_calls, List.countP_append]

/-- `initialize_audio_device` calls `wiced_audio_init` exactly once, whatever the outcome. -/
theorem initialize_audio_device_init_calls (env : Env) (period_size : Nat) (s : Sys) :
    init_calls (initialize_audio_device env period_size s).2.calls = init_calls s.calls + 1 := by
  unfold initialize_audio_device exit_with_error
  simp only [Id.run, bind, pure]
  split_ifs <;> simp [init_calls_append] <;> simp [init_calls]

/-- The `START` block when the device is configured and the stream started. -/
theorem rx_thread_START_steady (hd : AvsHeader) (env : Env) (s : Sys)
    (hc : s.app.rx_configured = true) (hs : s.app.rx_started = true) :
    rx_thread_START hd env s = s := by
  unfold rx_thread_START
  simp [Id.run, hc, hs]

/-- The `START` block from an unconfigured state calls `wiced_audio_init` exactly once. -/
theorem rx_thread_START_init_calls (hd : AvsHeader) (env : Env) (s : Sys)
    (hc : s.app.rx_configured = false) :
    init_calls (rx_thread_START hd env s).calls = init_calls s.calls + 1 := by
  have h := initialize_audio_device_init_calls env (RX_PERIOD_SIZE hd) s
  unfold rx_thread_START
  simp only [Id.run, bind, pure, hc]
  split_ifs <;> simp [init_calls_append, h] <;> simp [init_calls]

/-- The `STOP` block when capture is not running. -/
theorem rx_thread_STOP_not_running (s : Sys) (hr : s.app.rx_run = false) :
    rx_thread_STOP s = s := by
  unfold rx_thread_STOP
  simp [Id.run, hr]

/-- After the `STOP` block capture is not running. -/
theorem rx_thread_STOP_flags (s : Sys) (hr : s.app.rx_run = true) :
    (rx_thread_STOP s).app.rx_run = false ∧ (rx_thread_STOP s).app.rx_configured = false ∧
    (rx_thread_STOP s).app.rx_started = false := by
  unfold rx_thread_STOP
  simp only [Id.run, bind, pure, hr]
  split_ifs <;> simp

/-- The code after the worker loop leaves all three flags clear. -/
theorem rx_thread_exit_flags (s : Sys) :
    (rx_thread_exit s).app.rx_run = false ∧ (rx_thread_exit s).app.rx_configured = false ∧
    (rx_thread_exit s).app.rx_started = false ∧
    (s.app.rx_configured = true → (rx_thread_exit s).app.rx_session = none) := by
  unfold rx_thread_exit
  simp only [Id.run, bind, pure]
  split_ifs <;> simp_all

end AvsApp

/-! ## Claims -/

namespace BusMatrix

/-- C1: for every well-formed header, register file and index, each of the five masked
accessor pairs reads back the value written, when the value is valid for its field: contained
in the field mask for the pre-encoded fields (burst type, default-master type, arbitration
type), below `2 ^ width` for the shifted fields (slot cycle, fixed default master). -/
theorem matrix_set_get_round_trip (h : MatrixHeader) (p_matrix : Matrix)
    (ul_id burst_type ul_slot_cycle defmstr_type ul_fixed_id arbt : Nat)
    (hh : h.WF)
    (h1 : burst_type &&& h.MATRIX_MCFG_ULBT.Msk = burst_type)
    (h2 : ul_slot_cycle < 2 ^ h.MATRIX_SCFG_SLOT_CYCLE.Width)
    (h3 : defmstr_type &&& h.MATRIX_SCFG_DEFMSTR_TYPE.Msk = defmstr_type)
    (h4 : ul_fixed_id < 2 ^ h.MATRIX_SCFG_FIXED_DEFMSTR.Width)
    (h5 : arbt &&& h.MATRIX_SCFG_ARBT.Msk = arbt) :
    matrix_get_master_burst_type h ul_id
        (matrix_set_master_burst_type h ul_id burst_type p_matrix) = burst_type ∧
    matrix_get_slave_slot_cycle h ul_id
        (matrix_set_slave_slot_cycle h ul_id ul_slot_cycle p_matrix) = ul_slot_cycle ∧
    matrix_get_slave_default_master_type h ul_id
        (matrix_set_slave_default_master_type h ul_id defmstr_type p_matrix) = defmstr_type ∧
    matrix_get_slave_fixed_default_master h ul_id
        (matrix_set_slave_fixed_default_master h ul_id ul_fixed_id p_matrix) = ul_fixed_id ∧
    matrix_get_slave_arbitration_type h ul_id
        (matrix_set_slave_arbitration_type h ul_id arbt p_matrix) = arbt := by
  obtain ⟨w1, w2, w3, w4, w5, -, -⟩ := hh
  refine ⟨?_, ?_, ?_, ?_, ?_⟩
  · simp only [matrix_get_master_burst_type, matrix_set_master_burst_type, store_same]
    exact field_read_after_write_enum _ w1 _ _ h1
  · simp only [matrix_get_slave_slot_cycle, matrix_set_slave_slot_cycle, store_same]
    exact field_read_after_write_shift _ (by omega) _ _ h2
  · simp only [matrix_get_slave_default_master_type, matrix_set_slave_default_master_type,
      store_same]
    exact field_read_after_write_enum _ (by omega) _ _ h3
  · simp only [matrix_get_slave_fixed_default_master, matrix_set_slave_fixed_default_master,
      store_same]
    exact field_read_after_write_shift _ (by omega) _ _ h4
  · simp only [matrix_get_slave_arbitration_type, matrix_set_slave_arbitration_type,
      store_same]
    exact field_read_after_write_enum _ (by omega) _ _ h5

/-- C1 at the SAM4S header: slave/master 2 of a register file of all-ones words. -/
theorem matrix_set_get_round_trip_witness :
    sam4s.WF ∧
    matrix_get_master_burst_type sam4s 2
        (matrix_set_master_burst_type sam4s 2 4 (fun _ => 0xFFFFFFFF)) = 4 ∧
    matrix_get_slave_slot_cycle sam4s 2
        (matrix_set_slave_slot_cycle sam4s 2 0x1F (fun _ => 0xFFFFFFFF)) = 0x1F ∧
    matrix_get_slave_default_master_type sam4s 2
        (matrix_set_slave_default_master_type sam4s 2 0x20000 (fun _ => 0xFFFFFFFF))
          = 0x20000 ∧
    matrix_get_slave_fixed_default_master sam4s 2
        (matrix_set_slave_fixed_default_master sam4s 2 3 (fun _ => 0xFFFFFFFF)) = 3 ∧
    matrix_get_slave_arbitration_type sam4s 2
        (matrix_set_slave_arbitration_type sam4s 2 0x1000000 (fun _ => 0xFFFFFFFF))
          = 0x1000000 :=
  ⟨by decide, matrix_set_get_round_trip sam4s (fun _ => 0xFFFFFFFF) 2 4 0x1F 0x20000 3
    0x1000000 (by decide) (by decide) (by decide) (by decide) (by decide) (by decide)⟩

/-- C2: for every well-formed header and register file, every index and every value valid
for the field, each of the five setters changes only bits of its own register that lie inside
its field mask (every other bit of every register is as before); and setting any of the four
`MATRIX_SCFG` fields of slave `ul_id` changes neither the getters of the other three fields of
that slave, nor any getter of another slave, nor the getter of any master of the
`MATRIX_MCFG` array. -/
theorem matrix_set_write_isolation (h : MatrixHeader) (p_matrix : Matrix)
    (ul_id burst_type ul_slot_cycle defmstr_type ul_fixed_id arbt : Nat)
    (hh : h.WF) (hp : p_matrix.WF)
    (h1 : burst_type &&& h.MATRIX_MCFG_ULBT.Msk = burst_type)
    (h3 : defmstr_type &&& h.MATRIX_SCFG_DEFMSTR_TYPE.Msk = defmstr_type)
    (h5 : arbt &&& h.MATRIX_SCFG_ARBT.Msk = arbt) :
    (∀ a i, (matrix_set_master_burst_type h ul_id burst_type p_matrix a).testBit i
        ≠ (p_matrix a).testBit i →
      a = h.MCFG ul_id ∧ h.MATRIX_MCFG_ULBT.Msk.testBit i = true) ∧
    (∀ a i, (matrix_set_slave_slot_cycle h ul_id ul_slot_cycle p_matrix a).testBit i
        ≠ (p_matrix a).testBit i →
      a = h.SCFG ul_id ∧ h.MATRIX_SCFG_SLOT_CYCLE.Msk.testBit i = true) ∧
    (∀ a i, (matrix_set_slave_default_master_type h ul_id defmstr_type p_matrix a).testBit i
        ≠ (p_matrix a).testBit i →
      a = h.SCFG ul_id ∧ h.MATRIX_SCFG_DEFMSTR_TYPE.Msk.testBit i = true) ∧
    (∀ a i, (matrix_set_slave_fixed_default_master h ul_id ul_fixed_id p_matrix a).testBit i
        ≠ (p_matrix a).testBit i →
      a = h.SCFG ul_id ∧ h.MATRIX_SCFG_FIXED_DEFMSTR.Msk.testBit i = true) ∧
    (∀ a i, (matrix_set_slave_arbitration_type h ul_id arbt p_matrix a).testBit i
        ≠ (p_matrix a).testBit i →
      a = h.SCFG ul_id ∧ h.MATRIX_SCFG_ARBT.Msk.testBit i = true) ∧
    (matrix_get_slave_default_master_type h ul_id
        (matrix_set_slave_slot_cycle h ul_id ul_slot_cycle p_matrix)
      = matrix_get_slave_default_master_type h ul_id p_matrix ∧
     matrix_get_slave_fixed_default_master h ul_id
        (matrix_set_slave_slot_cycle h ul_id ul_slot_cycle p_matrix)
      = matrix_get_slave_fixed_default_master h ul_id p_matrix ∧
     matrix_get_slave_arbitration_type h ul_id
        (matrix_set_slave_slot_cycle h ul_id ul_slot_cycle p_matrix)
      = matrix_get_slave_arbitration_type h ul_id p_matrix) ∧
    (matrix_get_slave_slot_cycle h ul_id
        (matrix_set_slave_default_master_type h ul_id defmstr_type p_matrix)
      = matrix_get_slave_slot_cycle h ul_id p_matrix ∧
     matrix_get_slave_fixed_default_master h ul_id
        (matrix_set_slave_default_master_type h ul_id defmstr_type p_matrix)
      = matrix_get_slave_fixed_default_master h ul_id p_matrix ∧
     matrix_get_slave_arbitration_type h ul_id
        (matrix_set_slave_default_master_type h ul_id defmstr_type p_matrix)
      = matrix_get_slave_arbitration_type h ul_id p_matrix) ∧
    (matrix_get_slave_slot_cycle h ul_id
        (matrix_set_slave_fixed_default_master h ul_id ul_fixed_id p_matrix)
      = matrix_get_slave_slot_cycle h ul_id p_matrix ∧
     matrix_get_slave_default_master_type h ul_id
        (matrix_set_slave_fixed_default_master h ul_id ul_fixed_id p_matrix)
      = matrix_get_slave_default_master_type h ul_id p_matrix ∧
     matrix_get_slave_arbitration_type h ul_id
        (matrix_set_slave_fixed_default_master h ul_id ul_fixed_id p_matrix)
      = matrix_get_slave_arbitration_type h ul_id p_matrix) ∧
    (matrix_get_slave_slot_cycle h ul_id
        (matrix_set_slave_arbitration_type h ul_id arbt p_matrix)
      = matrix_get_slave_slot_cycle h ul_id p_matrix ∧
     matrix_get_slave_default_master_type h ul_id
        (matrix_set_slave_arbitration_type h ul_id arbt p_matrix)
      = matrix_get_slave_default_master_type h ul_id p_matrix ∧
     matrix_get_slave_fixed_default_master h ul_id
        (matrix_set_slave_arbitration_type h ul_id arbt p_matrix)
      = matrix_get_slave_fixed_default_master h ul_id p_matrix) ∧
    (∀ p2, (p2 = matrix_set_slave_slot_cycle h ul_id ul_slot_cycle p_matrix ∨
            p2 = matrix_set_slave_default_master_type h ul_id defmstr_type p_matrix ∨
            p2 = matrix_set_slave_fixed_default_master h ul_id ul_fixed_id p_matrix ∨
            p2 = matrix_set_slave_arbitration_type h ul_id arbt p_matrix) →
      (∀ id2, id2 ≠ ul_id → slave_getters h id2 p2 = slave_getters h id2 p_matrix) ∧
      (∀ m, m < h.MCFG_dim →
        matrix_get_master_burst_type h m p2 = matrix_get_master_burst_type h m p_matrix)) := by
  have hw := hh
  obtain ⟨w1, w2, w3, w4, w5, -, -⟩ := hw
  have e1 := cast_sub_Msk h.MATRIX_MCFG_ULBT burst_type h1
  have e2 := enc_sub_Msk h.MATRIX_SCFG_SLOT_CYCLE ul_slot_cycle
  have e3 := cast_sub_Msk h.MATRIX_SCFG_DEFMSTR_TYPE defmstr_type h3
  have e4 := enc_sub_Msk h.MATRIX_SCFG_FIXED_DEFMSTR ul_fixed_id
  have e5 := cast_sub_Msk h.MATRIX_SCFG_ARBT arbt h5
  have d12 := MskDisjoint_of_le h.MATRIX_SCFG_SLOT_CYCLE h.MATRIX_SCFG_DEFMSTR_TYPE w2
  have d13 := MskDisjoint_of_le h.MATRIX_SCFG_SLOT_CYCLE h.MATRIX_SCFG_FIXED_DEFMSTR (by omega)
  have d14 := MskDisjoint_of_le h.MATRIX_SCFG_SLOT_CYCLE h.MATRIX_SCFG_ARBT (by omega)
  have d23 := MskDisjoint_of_le h.MATRIX_SCFG_DEFMSTR_TYPE h.MATRIX_SCFG_FIXED_DEFMSTR w3
  have d24 := MskDisjoint_of_le h.MATRIX_SCFG_DEFMSTR_TYPE h.MATRIX_SCFG_ARBT (by omega)
  have d34 := MskDisjoint_of_le h.MATRIX_SCFG_FIXED_DEFMSTR h.MATRIX_SCFG_ARBT w4
  refine ⟨?_, ?_, ?_, ?_, ?_, ⟨?_, ?_, ?_⟩, ⟨?_, ?_, ?_⟩, ⟨?_, ?_, ?_⟩, ⟨?_, ?_, ?_⟩, ?_⟩
  · exact store_rmw_changes p_matrix hp _ _ _ e1
  · exact store_rmw_changes p_matrix hp _ _ _ e2
  · exact store_rmw_changes p_matrix hp _ _ _ e3
  · exact store_rmw_changes p_matrix hp _ _ _ e4
  · exact store_rmw_changes p_matrix hp _ _ _ e5
  · exact store_rmw_and_disjoint p_matrix hp _ _ d12.1 _ _ e2 _
  · exact congrArg (· >>> _) (store_rmw_and_disjoint p_matrix hp _ _ d13.1 _ _ e2 _)
  · exact store_rmw_and_disjoint p_matrix hp _ _ d14.1 _ _ e2 _
  · exact congrArg (· >>> _) (store_rmw_and_disjoint p_matrix hp _ _ d12.2 _ _ e3 _)
  · exact congrArg (· >>> _) (store_rmw_and_disjoint p_matrix hp _ _ d23.1 _ _ e3 _)
  · exact store_rmw_and_disjoint p_matrix hp _ _ d24.1 _ _ e3 _
  · exact congrArg (· >>> _) (store_rmw_and_disjoint p_matrix hp _ _ d13.2 _ _ e4 _)
  · exact store_rmw_and_disjoint p_matrix hp _ _ d23.2 _ _ e4 _
  · exact store_rmw_and_disjoint p_matrix hp _ _ d34.1 _ _ e4 _
  · exact congrArg (· >>> _) (store_rmw_and_disjoint p_matrix hp _ _ d14.2 _ _ e5 _)
  · exact store_rmw_and_disjoint p_matrix hp _ _ d24.2 _ _ e5 _
  · exact congrArg (· >>> _) (store_rmw_and_disjoint p_matrix hp _ _ d34.2 _ _ e5 _)
  · intro p2 hp2
    rcases hp2 with rfl | rfl | rfl | rfl <;> exact store_SCFG_frame h hh p_matrix ul_id _

/-- C2 at the SAM4S header, slave 2 of a register file of all-ones words. -/
theorem matrix_set_write_isolation_witness :
    matrix_get_slave_default_master_type sam4s 2
        (matrix_set_slave_slot_cycle sam4s 2 0x1F (fun _ => 0xFFFFFFFF))
      = matrix_get_slave_default_master_type sam4s 2 (fun _ => 0xFFFFFFFF) ∧
    slave_getters sam4s 3 (matrix_set_slave_arbitration_type sam4s 2 0x1000000
        (fun _ => 0xFFFFFFFF))
      = slave_getters sam4s 3 (fun _ => 0xFFFFFFFF) ∧
    matrix_get_master_burst_type sam4s 3
        (matrix_set_slave_fixed_default_master sam4s 2 3 (fun _ => 0xFFFFFFFF))
      = matrix_get_master_burst_type sam4s 3 (fun _ => 0xFFFFFFFF) :=
  have h := matrix_set_write_isolation sam4s (fun _ => 0xFFFFFFFF) 2 4 0x1F 0x20000 3 0x1000000
    (by decide) (fun _ => by show (4294967295 : Nat) < 2 ^ 32; decide)
    (by decide) (by decide) (by decide)
  ⟨h.2.2.2.2.2.1.1,
   (h.2.2.2.2.2.2.2.2.2 _ (Or.inr (Or.inr (Or.inr rfl)))).1 3 (by decide),
   (h.2.2.2.2.2.2.2.2.2 _ (Or.inr (Or.inr (Or.inl rfl)))).2 3 (by decide)⟩

end BusMatrix

namespace AvsApp

open wiced_result_t

/-- C3: stereo-to-mono conversion. For every state in which `process_rx_audio` reaches the
copy (running, lazy setup succeeded or already done, wait and get-buffer succeed) with a
hardware buffer of `N` interleaved 16-bit stereo frames (`avail = 4 * N`) and a free
destination slot, the slot afterwards is marked in use, its recorded length is
`avail / 2 = 2 * N`, its bytes `2k` and `2k+1` are the input bytes `4k` and `4k+1` for every
`k < N`, and no byte from offset `2 * N` on was written. -/
theorem process_rx_audio_stereo_to_mono (hd : AvsHeader) (env : Env) (s s1 : Sys)
    (buf : Nat → Nat) (avail_out N : Nat)
    (hrun : s.app.rx_run = true)
    (hsetup : process_rx_audio_setup hd env s = .ok s1)
    (hwait : env.wiced_audio_wait_buffer s1.calls.length = WICED_SUCCESS)
    (hget : env.wiced_audio_get_buffer (s1.calls.length + 1) = (WICED_SUCCESS, buf, avail_out))
    (havail : avail_out % 2 ^ 16 = 4 * N)
    (hfree : (s.app.pcm_bufs s.app.pcm_write_idx).inuse = 0) :
    ((process_rx_audio hd env s).2.app.pcm_bufs s.app.pcm_write_idx).inuse = 1 ∧
    ((process_rx_audio hd env s).2.app.pcm_bufs s.app.pcm_write_idx).buflen = 2 * N ∧
    ((process_rx_audio hd env s).2.app.pcm_bufs s.app.pcm_write_idx).buflen
      = avail_out % 2 ^ 16 / 2 ∧
    (∀ k, k < N →
      ((process_rx_audio hd env s).2.app.pcm_bufs s.app.pcm_write_idx).buf (2 * k)
        = buf (4 * k) ∧
      ((process_rx_audio hd env s).2.app.pcm_bufs s.app.pcm_write_idx).buf (2 * k + 1)
        = buf (4 * k + 1)) ∧
    (∀ j, 2 * N ≤ j →
      ((process_rx_audio hd env s).2.app.pcm_bufs s.app.pcm_write_idx).buf j
        = (s.app.pcm_bufs s.app.pcm_write_idx).buf j) := by
  obtain ⟨-, -, -, -, hb, hw, -⟩ := (process_rx_audio_setup_frame hd env s).1 s1 hsetup
  have hfree1 : (s1.app.pcm_bufs s1.app.pcm_write_idx).inuse = 0 := by rw [hb, hw]; exact hfree
  obtain ⟨-, -, -, -, hp, -⟩ := process_rx_audio_capture_free hd env s1 buf avail_out hwait hget hfree1
  have hrun2 : ¬ (s.app.rx_run = false) := by simp [hrun]
  simp only [process_rx_audio, if_neg hrun2, hsetup, hp, hw, hb, if_true]
  rw [havail]
  have hn : (4 * N - 0 + 3) / 4 = N := by omega
  obtain ⟨-, -, -, ho⟩ := copy_body_iterate buf N
    { i := 0, src := 0, dst := 0, out := (s.app.pcm_bufs s.app.pcm_write_idx).buf, reads := [] }
  simp only [copy_loop_eq_iterate, hn, ho]
  refine ⟨trivial, by omega, trivial, ?_, ?_⟩
  · intro k hk
    have a1 : (0 ≤ 2 * k ∧ 2 * k < 0 + 2 * N) := by omega
    have a2 : (0 ≤ 2 * k + 1 ∧ 2 * k + 1 < 0 + 2 * N) := by omega
    have a3 : (2 * k - 0) / 2 = k := by omega
    have a4 : (2 * k - 0) % 2 = 0 := by omega
    have a5 : (2 * k + 1 - 0) / 2 = k := by omega
    have a6 : (2 * k + 1 - 0) % 2 = 1 := by omega
    simp only [if_pos a1, if_pos a2, a3, a4, a5, a6]
    simp
  · intro j hj
    have a1 : ¬ (0 ≤ j ∧ j < 0 + 2 * N) := by omega
    simp only [if_neg a1]

/-- C3 in the world where every call succeeds, while capturing: two stereo frames. -/
theorem process_rx_audio_stereo_to_mono_witness :
    ((process_rx_audio hdr4 env_ok sys_capturing).2.app.pcm_bufs 0).inuse = 1 ∧
    ((process_rx_audio hdr4 env_ok sys_capturing).2.app.pcm_bufs 0).buflen = 2 * 2 ∧
    ((process_rx_audio hdr4 env_ok sys_capturing).2.app.pcm_bufs 0).buflen = 8 % 2 ^ 16 / 2 ∧
    (∀ k, k < 2 →
      ((process_rx_audio hdr4 env_ok sys_capturing).2.app.pcm_bufs 0).buf (2 * k)
        = 10 + 4 * k ∧
      ((process_rx_audio hdr4 env_ok sys_capturing).2.app.pcm_bufs 0).buf (2 * k + 1)
        = 10 + (4 * k + 1)) ∧
    (∀ j, 2 * 2 ≤ j →
      ((process_rx_audio hdr4 env_ok sys_capturing).2.app.pcm_bufs 0).buf j = 0) :=
  process_rx_audio_stereo_to_mono hdr4 env_ok sys_capturing sys_capturing
    (fun k => 10 + k) 8 2 rfl rfl rfl rfl (by decide) rfl

/-- C4 fails as stated: with every slot in use and the stream stopped by an earlier timeout,
the call restarts the stream, the wait and get-buffer calls succeed, the frame is dropped with
`WICED_ERROR`, and `rx_started` has changed from false to true. -/
theorem process_rx_audio_pool_full_counterexample :
    sys_full_stopped.app.rx_run = true ∧
    (sys_full_stopped.app.pcm_bufs sys_full_stopped.app.pcm_write_idx).inuse = 1 ∧
    sys_full_stopped.app.rx_started = false ∧
    (process_rx_audio hdr4 env_ok sys_full_stopped).2.calls =
      [.wiced_audio_start (some 1), .wiced_audio_wait_buffer (some 1) 8 200,
       .wiced_audio_get_buffer (some 1) 8] ∧
    (process_rx_audio hdr4 env_ok sys_full_stopped).1 = WICED_ERROR ∧
    (process_rx_audio hdr4 env_ok sys_full_stopped).2.app.rx_started = true := by
  refine ⟨rfl, rfl, rfl, ?_, ?_, ?_⟩ <;> decide

/-- C4, amended: for every state in which `process_rx_audio` reaches the in-use test
(running, lazy setup succeeded or already done, wait and get-buffer succeed) and the slot at
`pcm_write_idx` is marked in use, the function returns `WICED_ERROR` after the wait and
get-buffer calls only, and leaves `pcm_write_idx`, `pcm_read_idx`, every PCM slot, `rx_run`
and `rx_thread_ptr` unchanged; `rx_configured` and `rx_started` are both true on return, and
when they were already true before the call the whole application state is unchanged. -/
theorem process_rx_audio_pool_full (hd : AvsHeader) (env : Env) (s s1 : Sys)
    (buf : Nat → Nat) (avail_out : Nat)
    (hrun : s.app.rx_run = true)
    (hsetup : process_rx_audio_setup hd env s = .ok s1)
    (hwait : env.wiced_audio_wait_buffer s1.calls.length = WICED_SUCCESS)
    (hget : env.wiced_audio_get_buffer (s1.calls.length + 1) = (WICED_SUCCESS, buf, avail_out))
    (hinuse : (s.app.pcm_bufs s.app.pcm_write_idx).inuse ≠ 0) :
    (process_rx_audio hd env s).1 = WICED_ERROR ∧
    (process_rx_audio hd env s).2.calls = s1.calls ++
      [.wiced_audio_wait_buffer s1.app.rx_session (RX_PERIOD_SIZE hd) 200,
       .wiced_audio_get_buffer s1.app.rx_session (RX_PERIOD_SIZE hd % 2 ^ 16)] ∧
    (process_rx_audio hd env s).2.log = s1.log ++ [(.WICED_LOG_ERR, "PCM buffers full\n")] ∧
    (process_rx_audio hd env s).2.app.pcm_write_idx = s.app.pcm_write_idx ∧
    (process_rx_audio hd env s).2.app.pcm_read_idx = s.app.pcm_read_idx ∧
    (process_rx_audio hd env s).2.app.pcm_bufs = s.app.pcm_bufs ∧
    (process_rx_audio hd env s).2.app.rx_run = s.app.rx_run ∧
    (process_rx_audio hd env s).2.app.rx_thread_ptr = s.app.rx_thread_ptr ∧
    (process_rx_audio hd env s).2.app.rx_configured = true ∧
    (process_rx_audio hd env s).2.app.rx_started = true ∧
    (s.app.rx_configured = true → s.app.rx_started = true →
      (process_rx_audio hd env s).2.app = s.app) := by
  obtain ⟨hc, hs, hr, ht, hb, hw, hrd⟩ := (process_rx_audio_setup_frame hd env s).1 s1 hsetup
  have hinuse1 : (s1.app.pcm_bufs s1.app.pcm_write_idx).inuse ≠ 0 := by rw [hb, hw]; exact hinuse
  have hcap := process_rx_audio_capture_full hd env s1 buf avail_out hwait hget hinuse1
  have hrun2 : ¬ (s.app.rx_run = false) := by simp [hrun]
  simp only [process_rx_audio, if_neg hrun2, hsetup, hcap]
  refine ⟨trivial, ?_, ?_, ?_, ?_, ?_, ?_, ?_, ?_, ?_, ?_⟩
  · simp
  · simp
  · simpa using hw
  · simpa using hrd
  · simpa using hb
  · simpa using hr
  · simpa using ht
  · simpa using hc
  · simpa using hs
  · intro h1 h2
    have := process_rx_audio_setup_steady hd env s h1 h2
    rw [this] at hsetup
    injection hsetup with e
    subst e
    simp

/-- C4 (amended) in the world where every call succeeds, while capturing with every slot in
use. -/
theorem process_rx_audio_pool_full_witness :
    (process_rx_audio hdr4 env_ok
        (sys_capturing.set_pcm_bufs (fun _ => { inuse := 1, buflen := 4, buf := fun _ => 0 }))).1
      = WICED_ERROR ∧
    (process_rx_audio hdr4 env_ok
        (sys_capturing.set_pcm_bufs (fun _ => { inuse := 1, buflen := 4, buf := fun _ => 0 }))
      ).2.app.pcm_write_idx = 0 ∧
    (process_rx_audio hdr4 env_ok
        (sys_capturing.set_pcm_bufs (fun _ => { inuse := 1, buflen := 4, buf := fun _ => 0 }))
      ).2.app
      = (sys_capturing.set_pcm_bufs (fun _ => { inuse := 1, buflen := 4, buf := fun _ => 0 })
        ).app :=
  have h := process_rx_audio_pool_full hdr4 env_ok
    (sys_capturing.set_pcm_bufs (fun _ => { inuse := 1, buflen := 4, buf := fun _ => 0 }))
    (sys_capturing.set_pcm_bufs (fun _ => { inuse := 1, buflen := 4, buf := fun _ => 0 }))
    (fun k => 10 + k) 8 rfl rfl rfl rfl (by decide)
  ⟨h.1, h.2.2.2.1, h.2.2.2.2.2.2.2.2.2.2 rfl rfl⟩

/-- C5: for every worker state with `rx_configured` and `rx_started` both true, the `START`
block of `avs_app_rx_thread` issues no call at all (so no `wiced_audio_init`, create-buffer,
configure or start), logs nothing and leaves the application state, flags and session handle
included, unchanged; hence if `START` is handled in an unconfigured state `s0` and succeeds,
leaving that state `s`, a second `START` changes nothing and `wiced_audio_init` has been called
exactly once over the two. -/
theorem rx_thread_START_twice (hd : AvsHeader) (env : Env) (s : Sys)
    (hc : s.app.rx_configured = true) (hs : s.app.rx_started = true) :
    (rx_thread_START hd env s).calls = s.calls ∧
    (rx_thread_START hd env s).log = s.log ∧
    (rx_thread_START hd env s).app = s.app ∧
    (∀ s0 : Sys, s0.app.rx_configured = false → rx_thread_START hd env s0 = s →
      rx_thread_START hd env (rx_thread_START hd env s0) = rx_thread_START hd env s0 ∧
      init_calls (rx_thread_START hd env (rx_thread_START hd env s0)).calls
        = init_calls s0.calls + 1) := by
  have h := rx_thread_START_steady hd env s hc hs
  refine ⟨by rw [h], by rw [h], by rw [h], ?_⟩
  intro s0 h0 e
  rw [e, h, ← e]
  exact ⟨rfl, rx_thread_START_init_calls hd env s0 h0⟩

/-- C5 in the world where every call succeeds: `START` handled twice from the idle state with
the thread created. -/
theorem rx_thread_START_twice_witness :
    (rx_thread_START hdr4 env_ok (rx_thread_START hdr4 env_ok sys_thread)).calls
      = (rx_thread_START hdr4 env_ok sys_thread).calls ∧
    init_calls (rx_thread_START hdr4 env_ok (rx_thread_START hdr4 env_ok sys_thread)).calls
      = init_calls sys_thread.calls + 1 ∧
    (rx_thread_START hdr4 env_ok sys_thread).calls =
      [.wiced_audio_init 8, .wiced_audio_create_buffer (some 1),
       .wiced_audio_configure (some 1), .wiced_audio_start (some 1)] :=
  have h := rx_thread_START_twice hdr4 env_ok (rx_thread_START hdr4 env_ok sys_thread)
    (by decide) (by decide)
  ⟨h.1, (h.2.2.2 sys_thread rfl rfl).2, by decide⟩

/-- C6: for every worker state in which `rx_run`, `rx_configured` and `rx_started` are all
false, the `STOP` block of `avs_app_rx_thread` issues no call and leaves the three flags false
and the session handle (indeed the whole state) unchanged; and for every worker state,
handling `STOP` twice in succession yields the same state as handling it once. -/
theorem rx_thread_STOP_idempotent (s : Sys)
    (hr : s.app.rx_run = false) (hc : s.app.rx_configured = false)
    (hs : s.app.rx_started = false) :
    (rx_thread_STOP s).calls = s.calls ∧
    (rx_thread_STOP s).app.rx_run = false ∧
    (rx_thread_STOP s).app.rx_configured = false ∧
    (rx_thread_STOP s).app.rx_started = false ∧
    (rx_thread_STOP s).app.rx_session = s.app.rx_session ∧
    rx_thread_STOP s = s ∧
    (∀ s2 : Sys, rx_thread_STOP (rx_thread_STOP s2) = rx_thread_STOP s2) := by
  have h := rx_thread_STOP_not_running s hr
  refine ⟨by rw [h], by rw [h, hr], by rw [h, hc], by rw [h, hs], by rw [h], h, ?_⟩
  intro s2
  cases h2 : s2.app.rx_run
  · rw [rx_thread_STOP_not_running s2 h2, rx_thread_STOP_not_running s2 h2]
  · exact rx_thread_STOP_not_running _ (rx_thread_STOP_flags s2 h2).1

/-- C6 at the idle state, and `STOP` twice while capturing. -/
theorem rx_thread_STOP_idempotent_witness :
    rx_thread_STOP sys_idle = sys_idle ∧
    rx_thread_STOP (rx_thread_STOP sys_capturing) = rx_thread_STOP sys_capturing ∧
    (rx_thread_STOP sys_capturing).calls =
      [.wiced_audio_stop (some 1), .wiced_audio_deinit (some 1)] :=
  have h := rx_thread_STOP_idempotent sys_idle rfl rfl rfl
  ⟨h.2.2.2.2.2.1, h.2.2.2.2.2.2 sys_capturing, by decide⟩

/-- C8: `avs_app_audio_rx_thread_start` returns `WICED_ERROR` whenever `rx_thread_ptr` is
non-NULL, and `avs_app_audio_rx_thread_stop` and `avs_app_audio_rx_capture_enable` return
`WICED_ERROR` whenever it is NULL; in each case the application state is unchanged and no call
is made (one error line is logged). -/
theorem thread_lifecycle_misuse (env : Env) (enable : Bool) (s1 s2 : Sys)
    (h1 : s1.app.rx_thread_ptr ≠ none) (h2 : s2.app.rx_thread_ptr = none) :
    ((avs_app_audio_rx_thread_start env s1).1 = WICED_ERROR ∧
     (avs_app_audio_rx_thread_start env s1).2.app = s1.app ∧
     (avs_app_audio_rx_thread_start env s1).2.calls = s1.calls ∧
     (avs_app_audio_rx_thread_start env s1).2.log
       = s1.log ++ [(.WICED_LOG_ERR, "RX thread already active\n")]) ∧
    ((avs_app_audio_rx_thread_stop env s2).1 = WICED_ERROR ∧
     (avs_app_audio_rx_thread_stop env s2).2.app = s2.app ∧
     (avs_app_audio_rx_thread_stop env s2).2.calls = s2.calls ∧
     (avs_app_audio_rx_thread_stop env s2).2.log
       = s2.log ++ [(.WICED_LOG_ERR, "No RX thread active\n")]) ∧
    ((avs_app_audio_rx_capture_enable enable s2).1 = WICED_ERROR ∧
     (avs_app_audio_rx_capture_enable enable s2).2.app = s2.app ∧
     (avs_app_audio_rx_capture_enable enable s2).2.calls = s2.calls ∧
     (avs_app_audio_rx_capture_enable enable s2).2.log
       = s2.log ++ [(.WICED_LOG_ERR, "No RX thread active\n")]) := by
  refine ⟨?_, ?_, ?_⟩
  · simp [avs_app_audio_rx_thread_start, Id.run, h1]
  · simp [avs_app_audio_rx_thread_stop, Id.run, h2]
  · simp [avs_app_audio_rx_capture_enable, Id.run, h2]

/-- C8 with a thread already created (for start) and with none (for stop and enable). -/
theorem thread_lifecycle_misuse_witness :
    (avs_app_audio_rx_thread_start env_ok sys_thread).1 = WICED_ERROR ∧
    (avs_app_audio_rx_thread_start env_ok sys_thread).2.calls = [] ∧
    (avs_app_audio_rx_thread_stop env_ok sys_idle).1 = WICED_ERROR ∧
    (avs_app_audio_rx_thread_stop env_ok sys_idle).2.calls = [] ∧
    (avs_app_audio_rx_capture_enable true sys_idle).1 = WICED_ERROR ∧
    (avs_app_audio_rx_capture_enable true sys_idle).2.calls = [] :=
  have h := thread_lifecycle_misuse env_ok true sys_thread sys_idle (by decide) rfl
  ⟨h.1.1, h.1.2.2.1, h.2.1.1, h.2.1.2.2.1, h.2.2.1, h.2.2.2.2.1⟩

end AvsApp

namespace BusMatrix

/-- C9 fails as stated: the value returned by `matrix_get_writeprotect_status` is the same
after `matrix_set_writeprotect(1)` and after `matrix_set_writeprotect(0)`; on a register file
of zero words it is 0 after enabling, on a register file of words 1 it is 1 after disabling. -/
theorem writeprotect_status_counterexample :
    matrix_get_writeprotect_status sam4s (matrix_set_writeprotect sam4s 1 (fun _ => 0)) = 0 ∧
    matrix_get_writeprotect_status sam4s (matrix_set_writeprotect sam4s 0 (fun _ => 0)) = 0 ∧
    matrix_get_writeprotect_status sam4s (matrix_set_writeprotect sam4s 1 (fun _ => 1)) = 1 ∧
    matrix_get_writeprotect_status sam4s (matrix_set_writeprotect sam4s 0 (fun _ => 1)) = 1 := by
  decide

/-- C9, amended: for every well-formed header, register file and argument,
`matrix_set_writeprotect` leaves the value returned by `matrix_get_writeprotect_status`
unchanged (the status is read from `MATRIX_WPSR`, which the setter does not write); what
follows the enable is the `WPEN` bit of `MATRIX_WPMR`, set after a non-zero argument and clear
after a zero one. -/
theorem writeprotect_enable_in_WPMR (h : MatrixHeader) (p_matrix : Matrix) (ul_enable : Nat)
    (hh : h.WF) :
    matrix_get_writeprotect_status h (matrix_set_writeprotect h ul_enable p_matrix)
      = matrix_get_writeprotect_status h p_matrix ∧
    matrix_set_writeprotect h ul_enable p_matrix h.WPMR &&& h.MATRIX_WPMR_WPEN.Msk
      = (if ul_enable ≠ 0 then h.MATRIX_WPMR_WPEN.Msk else 0) := by
  obtain ⟨-, -, -, -, -, -, hne, hw, hlt, h32⟩ := hh
  have hne2 : h.WPSR ≠ h.WPMR := by
    unfold MatrixHeader.WPSR MatrixHeader.WPMR
    omega
  constructor
  · unfold matrix_get_writeprotect_status matrix_set_writeprotect
    split_ifs <;> rw [store_other _ _ _ _ hne2]
  · unfold matrix_set_writeprotect
    split_ifs with he
    · rw [store_same]
      apply Nat.eq_of_testBit_eq
      intro i
      simp only [Nat.testBit_and, Nat.testBit_mod_two_pow, Nat.testBit_or, testBit_enc,
        testBit_Msk]
      by_cases hi : h.MATRIX_WPMR_WPEN.Pos ≤ i ∧ i < h.MATRIX_WPMR_WPEN.Pos + h.MATRIX_WPMR_WPEN.Width
      · have h1 : i < 32 := by omega
        simp [hi.1, hi.2, h1]
      · have h1 : ¬ (h.MATRIX_WPMR_WPEN.Pos ≤ i) ∨
            ¬ (i < h.MATRIX_WPMR_WPEN.Pos + h.MATRIX_WPMR_WPEN.Width) := by omega
        rcases h1 with h1 | h1 <;> simp [h1]
    · rw [store_same]
      apply Nat.eq_of_testBit_eq
      intro i
      simp only [Nat.testBit_and, Nat.testBit_mod_two_pow, testBit_enc, testBit_Msk,
        Nat.zero_testBit]
      by_cases hi : h.MATRIX_WPMR_WPKEY.Pos ≤ i
      · have h1 : ¬ (i < h.MATRIX_WPMR_WPEN.Pos + h.MATRIX_WPMR_WPEN.Width) := by omega
        simp [h1]
      · simp [hi]

/-- C9 (amended) at the SAM4S header on a register file of all-ones words. -/
theorem writeprotect_enable_in_WPMR_witness :
    matrix_get_writeprotect_status sam4s (matrix_set_writeprotect sam4s 1 (fun _ => 0xFFFFFFFF))
      = matrix_get_writeprotect_status sam4s (fun _ => 0xFFFFFFFF) ∧
    matrix_set_writeprotect sam4s 1 (fun _ => 0xFFFFFFFF) sam4s.WPMR
        &&& sam4s.MATRIX_WPMR_WPEN.Msk = 1 ∧
    matrix_set_writeprotect sam4s 1 (fun _ => 0xFFFFFFFF) sam4s.WPMR = 0x4D415401 :=
  have h := writeprotect_enable_in_WPMR sam4s (fun _ => 0xFFFFFFFF) 1 (by decide)
  ⟨h.1, h.2, by decide⟩

end BusMatrix

namespace AvsApp

open wiced_result_t

/-- C10 fails as stated: with the thread created and capture not running,
`avs_app_audio_rx_capture_enable(app, WICED_TRUE)` succeeds and has set `rx_run`. -/
theorem capture_enable_sets_rx_run_counterexample :
    sys_thread.app.rx_run = false ∧
    (avs_app_audio_rx_capture_enable true sys_thread).1 = WICED_SUCCESS ∧
    (avs_app_audio_rx_capture_enable true sys_thread).2.app.rx_run = true := by
  decide

/-- C10, amended: none of the three externally callable operations changes `rx_configured` or
`rx_started`, and `avs_app_audio_rx_thread_start` and `avs_app_audio_rx_capture_enable` with
`enable` false do not change `rx_run` either; `avs_app_audio_rx_capture_enable` with `enable`
true and a thread active leaves `rx_run` true; after `avs_app_audio_rx_thread_stop` the three
flags are as they were before the call when no thread was active, and otherwise as the worker
left them when it was joined. -/
theorem control_flags_external_writes (env : Env) (enable : Bool) (s : Sys) :
    ((avs_app_audio_rx_thread_start env s).2.app.rx_run = s.app.rx_run ∧
     (avs_app_audio_rx_thread_start env s).2.app.rx_configured = s.app.rx_configured ∧
     (avs_app_audio_rx_thread_start env s).2.app.rx_started = s.app.rx_started) ∧
    ((avs_app_audio_rx_capture_enable enable s).2.app.rx_configured = s.app.rx_configured ∧
     (avs_app_audio_rx_capture_enable enable s).2.app.rx_started = s.app.rx_started ∧
     (avs_app_audio_rx_capture_enable enable s).2.app.rx_run =
       (if s.app.rx_thread_ptr ≠ none ∧ enable = true then true else s.app.rx_run)) ∧
    ((avs_app_audio_rx_thread_stop env s).2.app.rx_run
        = (if s.app.rx_thread_ptr = none then s else env.wiced_rtos_thread_join
            (((s.call (.wiced_rtos_set_event_flags AVS_APP_RX_EVENT_SHUTDOWN)).call
              .wiced_rtos_thread_force_awake).call .wiced_rtos_thread_join)).app.rx_run ∧
     (avs_app_audio_rx_thread_stop env s).2.app.rx_configured
        = (if s.app.rx_thread_ptr = none then s else env.wiced_rtos_thread_join
            (((s.call (.wiced_rtos_set_event_flags AVS_APP_RX_EVENT_SHUTDOWN)).call
              .wiced_rtos_thread_force_awake).call .wiced_rtos_thread_join)).app.rx_configured ∧
     (avs_app_audio_rx_thread_stop env s).2.app.rx_started
        = (if s.app.rx_thread_ptr = none then s else env.wiced_rtos_thread_join
            (((s.call (.wiced_rtos_set_event_flags AVS_APP_RX_EVENT_SHUTDOWN)).call
              .wiced_rtos_thread_force_awake).call .wiced_rtos_thread_join)).app.rx_started) := by
  refine ⟨?_, ?_, ?_⟩
  · unfold avs_app_audio_rx_thread_start
    simp only [Id.run, bind, pure]
    split_ifs <;> simp
  · unfold avs_app_audio_rx_capture_enable
    simp only [Id.run, bind, pure]
    split_ifs <;> simp_all
  · unfold avs_app_audio_rx_thread_stop
    simp only [Id.run, bind, pure]
    split_ifs <;> simp_all

end AvsApp

/-! ## Further facts about the capture code -/

namespace AvsApp

open wiced_result_t

/-- The `STOP` block while capture is running: the calls it issues and the state it leaves. -/
theorem rx_thread_STOP_running (s : Sys) (hr : s.app.rx_run = true) :
    (rx_thread_STOP s).calls = s.calls ++
      ((if s.app.rx_started = true then [Call.wiced_audio_stop s.app.rx_session] else []) ++
       (if s.app.rx_configured = true then [Call.wiced_audio_deinit s.app.rx_session] else [])) ∧
    (rx_thread_STOP s).log = s.log ∧
    (rx_thread_STOP s).app.rx_session
      = (if s.app.rx_configured = true then none else s.app.rx_session) ∧
    (rx_thread_STOP s).app.rx_thread_ptr = s.app.rx_thread_ptr ∧
    (rx_thread_STOP s).app.pcm_bufs = s.app.pcm_bufs ∧
    (rx_thread_STOP s).app.pcm_write_idx = s.app.pcm_write_idx ∧
    (rx_thread_STOP s).app.pcm_read_idx = s.app.pcm_read_idx := by
  unfold rx_thread_STOP
  simp only [Id.run, bind, pure, hr]
  split_ifs <;> simp_all

/-- After the `STOP` block capture is not running, whatever the state before. -/
theorem rx_thread_STOP_rx_run (s : Sys) : (rx_thread_STOP s).app.rx_run = false := by
  cases h : s.app.rx_run
  · rw [rx_thread_STOP_not_running s h, h]
  · exact (rx_thread_STOP_flags s h).1

/-- The `START` block does not touch `rx_run`. -/
theorem rx_thread_START_rx_run (hd : AvsHeader) (env : Env) (s : Sys) :
    (rx_thread_START hd env s).app.rx_run = s.app.rx_run := by
  have hf := initialize_audio_device_frame env (RX_PERIOD_SIZE hd) s
  unfold rx_thread_START
  simp only [Id.run, bind, pure]
  split_ifs <;> simp_all

/-- A pass of the loop body whose wait returns `STOP` without `SHUTDOWN`: the pass ends with
the `STOP` block. -/
theorem rx_thread_body_stop (hd : AvsHeader) (env : Env) (s : Sys)
    (h1 : env.wiced_rtos_wait_for_event_flags s.calls.length &&& AVS_APP_RX_EVENT_SHUTDOWN = 0)
    (h2 : env.wiced_rtos_wait_for_event_flags s.calls.length &&& AVS_APP_RX_EVENT_STOP ≠ 0) :
    rx_thread_body hd env s = .next (rx_thread_STOP
      (if env.wiced_rtos_wait_for_event_flags s.calls.length &&& AVS_APP_RX_EVENT_START ≠ 0 then
        rx_thread_START hd env (s.call (.wiced_rtos_wait_for_event_flags
          (if s.app.rx_run then WICED_NO_WAIT else WICED_WAIT_FOREVER)))
       else s.call (.wiced_rtos_wait_for_event_flags
          (if s.app.rx_run then WICED_NO_WAIT else WICED_WAIT_FOREVER)))) := by
  unfold rx_thread_body
  simp only [Id.run, bind, pure]
  simp only [h1, h2, ne_eq, not_true_eq_false, not_false_eq_true, if_true, if_false]
  split_ifs <;> simp_all [rx_thread_STOP_rx_run]

/-- C11: with an active thread, `avs_app_audio_rx_capture_enable` with `enable` true returns
`WICED_SUCCESS`, zeroes every PCM slot (in-use tag clear, `buflen` 0), sets `pcm_write_idx` and
`pcm_read_idx` to 0, sets `rx_run` and raises exactly the `START` event; with `enable` false it
returns `WICED_SUCCESS`, raises exactly the `STOP` event and leaves the PCM pool, both indices
and all flags (the whole application state) unchanged. -/
theorem capture_enable_active_thread (s : Sys) (hp : s.app.rx_thread_ptr ≠ none) :
    ((avs_app_audio_rx_capture_enable true s).1 = WICED_SUCCESS ∧
     (avs_app_audio_rx_capture_enable true s).2.app.pcm_bufs = pcm_bufs_zero ∧
     (∀ k, ((avs_app_audio_rx_capture_enable true s).2.app.pcm_bufs k).inuse = 0 ∧
           ((avs_app_audio_rx_capture_enable true s).2.app.pcm_bufs k).buflen = 0 ∧
           ∀ j, ((avs_app_audio_rx_capture_enable true s).2.app.pcm_bufs k).buf j = 0) ∧
     (avs_app_audio_rx_capture_enable true s).2.app.pcm_write_idx = 0 ∧
     (avs_app_audio_rx_capture_enable true s).2.app.pcm_read_idx = 0 ∧
     (avs_app_audio_rx_capture_enable true s).2.app.rx_run = true ∧
     (avs_app_audio_rx_capture_enable true s).2.app.rx_configured = s.app.rx_configured ∧
     (avs_app_audio_rx_capture_enable true s).2.app.rx_started = s.app.rx_started ∧
     (avs_app_audio_rx_capture_enable true s).2.app.rx_session = s.app.rx_session ∧
     (avs_app_audio_rx_capture_enable true s).2.calls
       = s.calls ++ [.wiced_rtos_set_event_flags AVS_APP_RX_EVENT_START]) ∧
    ((avs_app_audio_rx_capture_enable false s).1 = WICED_SUCCESS ∧
     (avs_app_audio_rx_capture_enable false s).2.app = s.app ∧
     (avs_app_audio_rx_capture_enable false s).2.calls
       = s.calls ++ [.wiced_rtos_set_event_flags AVS_APP_RX_EVENT_STOP]) := by
  constructor
  · simp [avs_app_audio_rx_capture_enable, Id.run, hp, pcm_bufs_zero]
  · simp [avs_app_audio_rx_capture_enable, Id.run, hp]

/-- C11 with the thread created: enabling from a state with every slot in use, and
disabling while capturing. -/
theorem capture_enable_active_thread_witness :
    (avs_app_audio_rx_capture_enable true sys_full_stopped).1 = WICED_SUCCESS ∧
    ((avs_app_audio_rx_capture_enable true sys_full_stopped).2.app.pcm_bufs 3).inuse = 0 ∧
    (avs_app_audio_rx_capture_enable true sys_full_stopped).2.calls
      = [.wiced_rtos_set_event_flags 2] ∧
    (avs_app_audio_rx_capture_enable false sys_full_stopped).2.calls
      = [.wiced_rtos_set_event_flags 4] :=
  have h := capture_enable_active_thread sys_full_stopped (by decide)
  ⟨h.1.1, (h.1.2.2.1 3).1, h.1.2.2.2.2.2.2.2.2.2, h.2.2.2⟩

/-- C12: for every worker state with `rx_run` true, the `STOP` block of `avs_app_rx_thread`
calls `wiced_audio_stop` exactly when `rx_started` was true, then `wiced_audio_deinit` exactly
when `rx_configured` was true, and nothing else; afterwards `rx_run`, `rx_configured` and
`rx_started` are all false and, when `rx_configured` was true, `rx_session` is `NULL`; and the
loop pass in which the wait returned `STOP` (without `SHUTDOWN`) ends with the `STOP` block,
with `rx_run` false: no capture iteration runs in it. -/
theorem rx_thread_STOP_full_teardown (hd : AvsHeader) (env : Env) (s : Sys)
    (hr : s.app.rx_run = true)
    (h1 : env.wiced_rtos_wait_for_event_flags s.calls.length &&& AVS_APP_RX_EVENT_SHUTDOWN = 0)
    (h2 : env.wiced_rtos_wait_for_event_flags s.calls.length &&& AVS_APP_RX_EVENT_STOP ≠ 0) :
    (rx_thread_STOP s).calls = s.calls ++
      ((if s.app.rx_started = true then [Call.wiced_audio_stop s.app.rx_session] else []) ++
       (if s.app.rx_configured = true then [Call.wiced_audio_deinit s.app.rx_session] else [])) ∧
    (rx_thread_STOP s).app.rx_run = false ∧
    (rx_thread_STOP s).app.rx_configured = false ∧
    (rx_thread_STOP s).app.rx_started = false ∧
    (s.app.rx_configured = true → (rx_thread_STOP s).app.rx_session = none) ∧
    rx_thread_body hd env s = .next (rx_thread_STOP
      (if env.wiced_rtos_wait_for_event_flags s.calls.length &&& AVS_APP_RX_EVENT_START ≠ 0 then
        rx_thread_START hd env (s.call (.wiced_rtos_wait_for_event_flags WICED_NO_WAIT))
       else s.call (.wiced_rtos_wait_for_event_flags WICED_NO_WAIT))) ∧
    (rx_thread_body hd env s).state.app.rx_run = false := by
  have hs := rx_thread_STOP_running s hr
  have hf := rx_thread_STOP_flags s hr
  have hb := rx_thread_body_stop hd env s h1 h2
  simp only [hr, if_true] at hb
  refine ⟨hs.1, hf.1, hf.2.1, hf.2.2, ?_, hb, ?_⟩
  · intro hc
    rw [hs.2.2.1, if_pos hc]
  · rw [hb]
    exact rx_thread_STOP_rx_run _

/-- C12 while capturing, in a world where every wait for events returns `STOP`. -/
theorem rx_thread_STOP_full_teardown_witness :
    (rx_thread_STOP sys_capturing).calls
      = [.wiced_audio_stop (some 1), .wiced_audio_deinit (some 1)] ∧
    (rx_thread_STOP sys_capturing).app.rx_session = none ∧
    (rx_thread_body hdr4 env_stop sys_capturing).state.calls
      = [.wiced_rtos_wait_for_event_flags WICED_NO_WAIT, .wiced_audio_stop (some 1),
         .wiced_audio_deinit (some 1)] ∧
    (rx_thread_body hdr4 env_stop sys_capturing).state.app.rx_run = false :=
  have h := rx_thread_STOP_full_teardown hdr4 env_stop sys_capturing rfl (by decide) (by decide)
  ⟨h.1, h.2.2.2.2.1 rfl, by decide, h.2.2.2.2.2.2⟩

end AvsApp

namespace AvsApp

open wiced_result_t

/-- The capture step when the wait for a period fails: the stream is stopped and marked not
started, nothing else changes. -/
theorem process_rx_audio_capture_wait_fails (hd : AvsHeader) (env : Env) (s : Sys)
    (hwait : env.wiced_audio_wait_buffer s.calls.length ≠ WICED_SUCCESS) :
    (process_rx_audio_capture hd env s).1 = WICED_SUCCESS ∧
    (process_rx_audio_capture hd env s).2.calls = s.calls ++
      [.wiced_audio_wait_buffer s.app.rx_session (RX_PERIOD_SIZE hd) 200,
       .wiced_audio_stop s.app.rx_session] ∧
    (process_rx_audio_capture hd env s).2.app.rx_started = false ∧
    (process_rx_audio_capture hd env s).2.app.rx_run = s.app.rx_run ∧
    (process_rx_audio_capture hd env s).2.app.rx_configured = s.app.rx_configured ∧
    (process_rx_audio_capture hd env s).2.app.rx_session = s.app.rx_session ∧
    (process_rx_audio_capture hd env s).2.app.rx_thread_ptr = s.app.rx_thread_ptr ∧
    (process_rx_audio_capture hd env s).2.app.pcm_bufs = s.app.pcm_bufs ∧
    (process_rx_audio_capture hd env s).2.app.pcm_write_idx = s.app.pcm_write_idx ∧
    (process_rx_audio_capture hd env s).2.app.pcm_read_idx = s.app.pcm_read_idx := by
  unfold process_rx_audio_capture
  simp only [Id.run, bind, pure]
  simp only [ne_eq, hwait, not_false_eq_true, if_true]
  split_ifs <;> simp

/-- The lazy setup keeps the session handle of a device that is already configured. -/
theorem process_rx_audio_setup_session (hd : AvsHeader) (env : Env) (s s1 : Sys)
    (hc : s.app.rx_configured = true) (h : process_rx_audio_setup hd env s = .ok s1) :
    s1.app.rx_session = s.app.rx_session := by
  unfold process_rx_audio_setup at h
  simp only [Id.run, bind, pure, hc, Bool.true_eq_false, if_false] at h
  split_ifs at h <;> simp at h <;> subst h <;> simp

/-- The flags after the `START` block, from a state that is not configured and in which
`initialize_audio_device` fails: `rx_configured` stays false, and `wiced_audio_start` is
called all the same when the stream is not started, its result deciding `rx_started`. -/
theorem rx_thread_START_init_failure (hd : AvsHeader) (env : Env) (s : Sys)
    (hc : s.app.rx_configured = false)
    (hi : (initialize_audio_device env (RX_PERIOD_SIZE hd) s).1 ≠ WICED_SUCCESS) :
    (rx_thread_START hd env s).app.rx_configured = false ∧
    (rx_thread_START hd env s).app.rx_run = s.app.rx_run ∧
    (rx_thread_START hd env s).app.rx_started =
      (s.app.rx_started || decide (env.wiced_audio_start
        (initialize_audio_device env (RX_PERIOD_SIZE hd) s).2.calls.length = WICED_SUCCESS)) := by
  have hf := initialize_audio_device_frame env (RX_PERIOD_SIZE hd) s
  unfold rx_thread_START
  simp only [Id.run, bind, pure, hc]
  split_ifs <;> simp_all

/-- The flags after the `START` block when the device is configured on entry or
`initialize_audio_device` succeeds, the stream is not started and `wiced_audio_start` fails:
`rx_started` stays false and `rx_configured` is true. -/
theorem rx_thread_START_start_failure (hd : AvsHeader) (env : Env) (s : Sys)
    (hs : s.app.rx_started = false)
    (hi : s.app.rx_configured = true ∨
      (initialize_audio_device env (RX_PERIOD_SIZE hd) s).1 = WICED_SUCCESS)
    (hf : env.wiced_audio_start
      (if s.app.rx_configured = true then s
       else (initialize_audio_device env (RX_PERIOD_SIZE hd) s).2).calls.length ≠ WICED_SUCCESS) :
    (rx_thread_START hd env s).app.rx_started = false ∧
    (rx_thread_START hd env s).app.rx_configured = true ∧
    (rx_thread_START hd env s).app.rx_run = s.app.rx_run := by
  have hfr := initialize_audio_device_frame env (RX_PERIOD_SIZE hd) s
  unfold rx_thread_START
  simp only [Id.run, bind, pure]
  cases hc : s.app.rx_configured
  · simp only [hc, Bool.false_eq_true, if_false, false_or] at hf hi
    simp [hi, hf, hfr, hs]
  · simp only [hc, if_true] at hf
    simp [hf, hs, hc]

/-- C13, at the failing input: from the idle state with the thread created, in a world where
`wiced_audio_init` fails and `wiced_audio_start` succeeds, the `START` block logs the failed
initialisation, goes on to call `wiced_audio_start` and sets `rx_started`, `rx_configured`
staying false. -/
theorem rx_thread_START_init_fails_evaluation :
    sys_thread.app.rx_configured = false ∧
    sys_thread.app.rx_started = false ∧
    (initialize_audio_device env_init_fails (RX_PERIOD_SIZE hdr4) sys_thread).1 = WICED_ERROR ∧
    (rx_thread_START hdr4 env_init_fails sys_thread).calls
      = [.wiced_audio_init 8, .wiced_audio_start none] ∧
    (rx_thread_START hdr4 env_init_fails sys_thread).app.rx_configured = false ∧
    (rx_thread_START hdr4 env_init_fails sys_thread).app.rx_started = true := by
  decide

/-- C14, at the failing input: one pass of the worker loop from the idle state with the thread
created (all flags false, no session), the wait returning `START`, `wiced_audio_init` failing
and `wiced_audio_start` succeeding, ends in a state with `rx_started` true and `rx_configured`
false. -/
theorem rx_thread_body_breaks_invariant_evaluation :
    sys_thread.app.rx_run = false ∧
    sys_thread.app.rx_configured = false ∧
    sys_thread.app.rx_started = false ∧
    sys_thread.app.rx_session = none ∧
    (rx_thread_body hdr4 env_init_fails sys_thread).state.calls
      = [.wiced_rtos_wait_for_event_flags WICED_WAIT_FOREVER, .wiced_audio_init 8,
         .wiced_audio_start none] ∧
    (rx_thread_body hdr4 env_init_fails sys_thread).state.app.rx_started = true ∧
    (rx_thread_body hdr4 env_init_fails sys_thread).state.app.rx_configured = false := by
  decide

/-- C15 fails as stated: from the idle state with the thread created and `rx_run` set, in a
world where every call succeeds but the wait for a period, the lazy initialisation and start
succeed, the wait fails, the stream is stopped and `WICED_SUCCESS` returned, and the session
handle has changed from `NULL` to the handle stored by `wiced_audio_init`. -/
theorem process_rx_audio_wait_timeout_counterexample :
    (sys_thread.set_rx_run true).app.rx_run = true ∧
    (sys_thread.set_rx_run true).app.rx_session = none ∧
    (process_rx_audio hdr4 env_wait_fails (sys_thread.set_rx_run true)).2.calls =
      [.wiced_audio_init 8, .wiced_audio_create_buffer (some 1),
       .wiced_audio_configure (some 1), .wiced_audio_start (some 1),
       .wiced_audio_wait_buffer (some 1) 8 200, .wiced_audio_stop (some 1)] ∧
    (process_rx_audio hdr4 env_wait_fails (sys_thread.set_rx_run true)).1 = WICED_SUCCESS ∧
    (process_rx_audio hdr4 env_wait_fails (sys_thread.set_rx_run true)).2.app.rx_started
      = false ∧
    (process_rx_audio hdr4 env_wait_fails (sys_thread.set_rx_run true)).2.app.rx_session
      = some 1 := by
  decide

/-- C15, amended: for every state with `rx_run` true in which, after the lazy initialisation
and start succeeded or were already done, `wiced_audio_wait_buffer` (period `RX_PERIOD_SIZE`,
timeout 200) fails, `process_rx_audio` then calls `wiced_audio_stop` and nothing else, returns
`WICED_SUCCESS`, and leaves `rx_run` true, `rx_configured` true and `rx_started` false, and
`pcm_write_idx`, `pcm_read_idx` and every PCM slot unchanged; the session handle is left as
it was when the wait was issued (the handle passed to `wiced_audio_wait_buffer`), which is the
handle from before the call when the device was already configured. -/
theorem process_rx_audio_wait_timeout (hd : AvsHeader) (env : Env) (s s1 : Sys)
    (hrun : s.app.rx_run = true)
    (hsetup : process_rx_audio_setup hd env s = .ok s1)
    (hwait : env.wiced_audio_wait_buffer s1.calls.length ≠ WICED_SUCCESS) :
    (process_rx_audio hd env s).1 = WICED_SUCCESS ∧
    (process_rx_audio hd env s).2.calls = s1.calls ++
      [.wiced_audio_wait_buffer s1.app.rx_session (RX_PERIOD_SIZE hd) 200,
       .wiced_audio_stop s1.app.rx_session] ∧
    (process_rx_audio hd env s).2.app.rx_run = true ∧
    (process_rx_audio hd env s).2.app.rx_configured = true ∧
    (process_rx_audio hd env s).2.app.rx_started = false ∧
    (process_rx_audio hd env s).2.app.rx_session = s1.app.rx_session ∧
    (s.app.rx_configured = true →
      (process_rx_audio hd env s).2.app.rx_session = s.app.rx_session) ∧
    (process_rx_audio hd env s).2.app.pcm_write_idx = s.app.pcm_write_idx ∧
    (process_rx_audio hd env s).2.app.pcm_read_idx = s.app.pcm_read_idx ∧
    (process_rx_audio hd env s).2.app.pcm_bufs = s.app.pcm_bufs := by
  obtain ⟨hc, -, hr, -, hb, hw, hrd⟩ := (process_rx_audio_setup_frame hd env s).1 s1 hsetup
  obtain ⟨c1, c2, c3, c4, c5, c6, -, c8, c9, c10⟩ :=
    process_rx_audio_capture_wait_fails hd env s1 hwait
  have hrun2 : ¬ (s.app.rx_run = false) := by simp [hrun]
  simp only [process_rx_audio, if_neg hrun2, hsetup]
  refine ⟨c1, c2, ?_, ?_, c3, c6, ?_, ?_, ?_, ?_⟩
  · rw [c4, hr, hrun]
  · rw [c5, hc]
  · intro h
    rw [c6, process_rx_audio_setup_session hd env s s1 h hsetup]
  · rw [c9, hw]
  · rw [c10, hrd]
  · rw [c8, hb]

/-- C15 while capturing, in a world where every wait for a period times out. -/
theorem process_rx_audio_wait_timeout_witness :
    (process_rx_audio hdr4 env_wait_fails sys_capturing).1 = WICED_SUCCESS ∧
    (process_rx_audio hdr4 env_wait_fails sys_capturing).2.calls
      = [.wiced_audio_wait_buffer (some 1) 8 200, .wiced_audio_stop (some 1)] ∧
    (process_rx_audio hdr4 env_wait_fails sys_capturing).2.app.rx_started = false ∧
    (process_rx_audio hdr4 env_wait_fails sys_capturing).2.app.rx_session = some 1 :=
  have h := process_rx_audio_wait_timeout hdr4 env_wait_fails sys_capturing sys_capturing
    rfl rfl (by decide)
  ⟨h.1, h.2.1, h.2.2.2.2.1, h.2.2.2.2.2.2.1 rfl⟩

/-- C16: for every state with `pcm_write_idx = w < AVS_APP_NUM_PCM_BUFS` whose slot `w` is
free, when `process_rx_audio` reaches the capture step and wait and get-buffer succeed with
`avail` bytes, it marks slot `w` in use, sets its `buflen` to `avail / 2`, sets
`pcm_write_idx` to `(w + 1) mod AVS_APP_NUM_PCM_BUFS`, which is in range, leaves every other
slot and `pcm_read_idx` unchanged, and after wait and get-buffer calls
`wiced_audio_release_buffer` once, with `avail`, returning that call's result. -/
theorem process_rx_audio_advances_ring (hd : AvsHeader) (env : Env) (s s1 : Sys)
    (buf : Nat → Nat) (avail_out : Nat)
    (hrun : s.app.rx_run = true)
    (hsetup : process_rx_audio_setup hd env s = .ok s1)
    (hwait : env.wiced_audio_wait_buffer s1.calls.length = WICED_SUCCESS)
    (hget : env.wiced_audio_get_buffer (s1.calls.length + 1) = (WICED_SUCCESS, buf, avail_out))
    (hidx : s.app.pcm_write_idx < hd.AVS_APP_NUM_PCM_BUFS)
    (hfree : (s.app.pcm_bufs s.app.pcm_write_idx).inuse = 0) :
    ((process_rx_audio hd env s).2.app.pcm_bufs s.app.pcm_write_idx).inuse = 1 ∧
    ((process_rx_audio hd env s).2.app.pcm_bufs s.app.pcm_write_idx).buflen
      = avail_out % 2 ^ 16 / 2 ∧
    (process_rx_audio hd env s).2.app.pcm_write_idx
      = (s.app.pcm_write_idx + 1) % hd.AVS_APP_NUM_PCM_BUFS ∧
    (process_rx_audio hd env s).2.app.pcm_write_idx < hd.AVS_APP_NUM_PCM_BUFS ∧
    (∀ k, k ≠ s.app.pcm_write_idx →
      (process_rx_audio hd env s).2.app.pcm_bufs k = s.app.pcm_bufs k) ∧
    (process_rx_audio hd env s).2.app.pcm_read_idx = s.app.pcm_read_idx ∧
    (process_rx_audio hd env s).2.calls = s1.calls ++
      [.wiced_audio_wait_buffer s1.app.rx_session (RX_PERIOD_SIZE hd) 200,
       .wiced_audio_get_buffer s1.app.rx_session (RX_PERIOD_SIZE hd % 2 ^ 16),
       .wiced_audio_release_buffer s1.app.rx_session (avail_out % 2 ^ 16)] ∧
    (process_rx_audio hd env s).1 = env.wiced_audio_release_buffer (s1.calls.length + 2) := by
  obtain ⟨-, -, -, -, hb, hw, hrd⟩ := (process_rx_audio_setup_frame hd env s).1 s1 hsetup
  have hfree1 : (s1.app.pcm_bufs s1.app.pcm_write_idx).inuse = 0 := by rw [hb, hw]; exact hfree
  obtain ⟨c1, c2, c3, c4, c5, -⟩ :=
    process_rx_audio_capture_free hd env s1 buf avail_out hwait hget hfree1
  have hrun2 : ¬ (s.app.rx_run = false) := by simp [hrun]
  simp only [process_rx_audio, if_neg hrun2, hsetup]
  refine ⟨?_, ?_, ?_, ?_, ?_, ?_, c2, c1⟩
  · rw [c5, hw]; simp
  · rw [c5, hw]; simp
  · rw [c3, hw]
  · rw [c3, hw]; exact Nat.mod_lt _ (by omega)
  · intro k hk
    rw [c5, hw, hb]
    simp [hk]
  · rw [c4, hrd]

/-- C16 in the world where every call succeeds, while capturing with slot 3 next. -/
theorem process_rx_audio_advances_ring_witness :
    (process_rx_audio hdr4 env_ok (sys_capturing.set_pcm_write_idx 3)).2.app.pcm_write_idx = 0 ∧
    ((process_rx_audio hdr4 env_ok (sys_capturing.set_pcm_write_idx 3)).2.app.pcm_bufs 3).buflen
      = 4 ∧
    (process_rx_audio hdr4 env_ok (sys_capturing.set_pcm_write_idx 3)).2.calls
      = [.wiced_audio_wait_buffer (some 1) 8 200, .wiced_audio_get_buffer (some 1) 8,
         .wiced_audio_release_buffer (some 1) 8] ∧
    (process_rx_audio hdr4 env_ok (sys_capturing.set_pcm_write_idx 3)).1 = WICED_SUCCESS :=
  have h := process_rx_audio_advances_ring hdr4 env_ok (sys_capturing.set_pcm_write_idx 3)
    (sys_capturing.set_pcm_write_idx 3) (fun k => 10 + k) 8 rfl rfl rfl rfl (by decide) rfl
  ⟨h.2.2.1, h.2.1, h.2.2.2.2.2.2.1, h.2.2.2.2.2.2.2⟩

end AvsApp

/-! ## Facts about the priority registers -/

namespace BusMatrix

/-- For a valid slave index the `uint32_t` address arithmetic of the priority accessors does
not wrap: the register of slave `ul_id` is `ul_id` strides after `MATRIX_PRAS0`. -/
theorem PRAS_address (h : MatrixHeader) (hw : h.WF_PRAS) (ul_id : Nat)
    (hid : ul_id < h.SCFG_dim) :
    (h.PRAS0 + (ul_id * ((h.PRAS1 + 2 ^ 32 - h.PRAS0) % 2 ^ 32)) % 2 ^ 32) % 2 ^ 32
      = h.MATRIX + h.MATRIX_PRAS0 + ul_id * (h.MATRIX_PRAS1 - h.MATRIX_PRAS0) := by
  obtain ⟨h1, h2, h3⟩ := hw
  have hd : ul_id * (h.MATRIX_PRAS1 - h.MATRIX_PRAS0)
      < h.SCFG_dim * (h.MATRIX_PRAS1 - h.MATRIX_PRAS0) :=
    Nat.mul_lt_mul_of_pos_right hid (by omega)
  have e0 : h.PRAS0 = h.MATRIX + h.MATRIX_PRAS0 := by
    unfold MatrixHeader.PRAS0
    exact Nat.mod_eq_of_lt (by omega)
  have e1 : h.PRAS1 = h.MATRIX + h.MATRIX_PRAS1 := by
    unfold MatrixHeader.PRAS1
    exact Nat.mod_eq_of_lt (by omega)
  have e2 : (h.PRAS1 + 2 ^ 32 - h.PRAS0) % 2 ^ 32 = h.MATRIX_PRAS1 - h.MATRIX_PRAS0 := by
    rw [e0, e1]
    omega
  rw [e2, e0, Nat.mod_eq_of_lt (a := ul_id * (h.MATRIX_PRAS1 - h.MATRIX_PRAS0)) (by omega)]
  exact Nat.mod_eq_of_lt (by omega)

/-- The priority registers of two different slaves are different locations. -/
theorem PRAS_address_ne (h : MatrixHeader) (hw : h.WF_PRAS) (a b : Nat) (hab : a ≠ b) :
    h.MATRIX + h.MATRIX_PRAS0 + a * (h.MATRIX_PRAS1 - h.MATRIX_PRAS0)
      ≠ h.MATRIX + h.MATRIX_PRAS0 + b * (h.MATRIX_PRAS1 - h.MATRIX_PRAS0) := by
  obtain ⟨h1, -, -⟩ := hw
  intro e
  have e2 : a * (h.MATRIX_PRAS1 - h.MATRIX_PRAS0) = b * (h.MATRIX_PRAS1 - h.MATRIX_PRAS0) := by
    omega
  exact hab (Nat.eq_of_mul_eq_mul_right (by omega) e2)

/-- C17: with the `WPKEY` field at bits 8..31 and the `WPEN` bit at bit 0 of `MATRIX_WPMR`, for
every register file and every argument, `matrix_set_writeprotect` stores into `MATRIX_WPMR`
the word made of the key `0x4D4154` in the `WPKEY` field and a `WPEN` bit equal to 1 for a
non-zero argument and 0 for a zero one; the stored word does not depend on the previous
contents of the register file, and no other register changes. -/
theorem matrix_set_writeprotect_whole_register (h : MatrixHeader) (p_matrix p2 : Matrix)
    (ul_enable : Nat)
    (hk : h.MATRIX_WPMR_WPKEY = ⟨8, 24⟩) (he : h.MATRIX_WPMR_WPEN = ⟨0, 1⟩) :
    matrix_set_writeprotect h ul_enable p_matrix h.WPMR
      = 0x4D4154 * 2 ^ 8 + (if ul_enable ≠ 0 then 1 else 0) ∧
    (matrix_set_writeprotect h ul_enable p_matrix h.WPMR &&& h.MATRIX_WPMR_WPKEY.Msk)
        >>> h.MATRIX_WPMR_WPKEY.Pos = MATRIX_WPKEY ∧
    (matrix_set_writeprotect h ul_enable p_matrix h.WPMR).testBit 0 = decide (ul_enable ≠ 0) ∧
    matrix_set_writeprotect h ul_enable p_matrix h.WPMR
      = matrix_set_writeprotect h ul_enable p2 h.WPMR ∧
    (∀ a, a ≠ h.WPMR → matrix_set_writeprotect h ul_enable p_matrix a = p_matrix a) := by
  have v1 : (Field.enc ⟨8, 24⟩ MATRIX_WPKEY ||| Field.Msk ⟨0, 1⟩) % 2 ^ 32 = 0x4D415401 := by
    decide
  have v0 : (Field.enc ⟨8, 24⟩ MATRIX_WPKEY) % 2 ^ 32 = 0x4D415400 := by decide
  unfold matrix_set_writeprotect
  by_cases hz : ul_enable = 0
  · simp only [hz, ne_eq, not_true_eq_false, if_false, store_same, hk, he, v0]
    refine ⟨by decide, by decide, by decide, trivial, ?_⟩
    intro a ha
    exact store_other _ _ _ _ ha
  · simp only [hz, ne_eq, not_false_eq_true, if_true, store_same, hk, he, v1]
    refine ⟨by decide, by decide, by decide, trivial, ?_⟩
    intro a ha
    exact store_other _ _ _ _ ha

/-- C17 at the SAM4S header: enabling on a register file of all-ones words. -/
theorem matrix_set_writeprotect_whole_register_witness :
    matrix_set_writeprotect sam4s 1 (fun _ => 0xFFFFFFFF) sam4s.WPMR = 0x4D415401 ∧
    matrix_set_writeprotect sam4s 1 (fun _ => 0xFFFFFFFF) sam4s.WPMR
      = matrix_set_writeprotect sam4s 1 (fun _ => 0) sam4s.WPMR ∧
    matrix_set_writeprotect sam4s 1 (fun _ => 0xFFFFFFFF) sam4s.WPSR = 0xFFFFFFFF :=
  have h := matrix_set_writeprotect_whole_register sam4s (fun _ => 0xFFFFFFFF) (fun _ => 0) 1
    rfl rfl
  ⟨h.1, h.2.2.2.1, h.2.2.2.2 sam4s.WPSR (by decide)⟩

/-- C18: with `d` the distance between `MATRIX_PRAS0` and `MATRIX_PRAS1`, for every valid slave
index `ul_id`, `matrix_set_slave_priority` stores the whole word at `MATRIX_PRAS0 + ul_id * d`
and changes nothing else, `matrix_get_slave_priority` reads that same location, so the get
after the set returns the 32-bit word written, and for every other valid index the value
returned by `matrix_get_slave_priority` is unchanged by the set. -/
theorem matrix_slave_priority_stride (h : MatrixHeader) (p_matrix : Matrix)
    (ul_id id2 ul_prio : Nat)
    (hw : h.WF_PRAS) (hid : ul_id < h.SCFG_dim) (hid2 : id2 < h.SCFG_dim) (hne : id2 ≠ ul_id)
    (hp : ul_prio < 2 ^ 32) :
    matrix_set_slave_priority h ul_id ul_prio p_matrix
      = p_matrix.store
          (h.MATRIX + h.MATRIX_PRAS0 + ul_id * (h.MATRIX_PRAS1 - h.MATRIX_PRAS0)) ul_prio ∧
    matrix_get_slave_priority h ul_id p_matrix
      = p_matrix (h.MATRIX + h.MATRIX_PRAS0 + ul_id * (h.MATRIX_PRAS1 - h.MATRIX_PRAS0)) ∧
    matrix_get_slave_priority h ul_id (matrix_set_slave_priority h ul_id ul_prio p_matrix)
      = ul_prio ∧
    matrix_get_slave_priority h id2 (matrix_set_slave_priority h ul_id ul_prio p_matrix)
      = matrix_get_slave_priority h id2 p_matrix := by
  have a1 := PRAS_address h hw ul_id hid
  have a2 := PRAS_address h hw id2 hid2
  simp only [matrix_set_slave_priority, matrix_get_slave_priority, a1, a2]
  refine ⟨trivial, trivial, ?_, ?_⟩
  · rw [store_same]
    exact Nat.mod_eq_of_lt hp
  · exact store_other _ _ _ _ (PRAS_address_ne h hw id2 ul_id hne)

/-- C18 at the SAM4S header: slave 2 written, slave 3 read. -/
theorem matrix_slave_priority_stride_witness :
    sam4s.WF_PRAS ∧
    matrix_get_slave_priority sam4s 2
        (matrix_set_slave_priority sam4s 2 0x00030201 (fun _ => 0)) = 0x00030201 ∧
    matrix_get_slave_priority sam4s 3
        (matrix_set_slave_priority sam4s 2 0x00030201 (fun _ => 0))
      = matrix_get_slave_priority sam4s 3 (fun _ => 0) ∧
    matrix_set_slave_priority sam4s 2 0x00030201 (fun _ => 0)
      = Matrix.store (fun _ => 0) 0x400E0290 0x00030201 :=
  have h := matrix_slave_priority_stride sam4s (fun _ => 0) 2 3 0x00030201
    (by decide) (by decide) (by decide) (by decide) (by decide)
  ⟨by decide, h.2.2.1, h.2.2.2, h.1⟩

end BusMatrix

/-! ## The source offsets read by the copy loop -/

namespace AvsApp

open wiced_result_t

/-- One pass of the body of the copy loop reads the two bytes at `src` and `src + 1`. -/
theorem copy_body_reads (buf : Nat → Nat) (c : CopyState) :
    (copy_body buf c).reads = c.reads ++ [c.src, c.src + 1] := by
  simp [copy_body, copy_byte]

/-- The source offsets read during `n` passes of the body of the copy loop: two per pass,
the offsets `src + 4j` and `src + 4j + 1` of every pass `j < n`, hence none above
`src + 4n - 3`. -/
theorem copy_body_iterate_reads (buf : Nat → Nat) (n : Nat) (c : CopyState) :
    ((copy_body buf)^[n] c).reads.length = c.reads.length + 2 * n ∧
    (∀ r, r ∈ ((copy_body buf)^[n] c).reads →
      r ∈ c.reads ∨ (c.src ≤ r ∧ r + 3 ≤ c.src + 4 * n)) ∧
    (∀ j, j < n → c.src + 4 * j ∈ ((copy_body buf)^[n] c).reads ∧
      c.src + 4 * j + 1 ∈ ((copy_body buf)^[n] c).reads) := by
  induction n with
  | zero =>
    refine ⟨by simp, ?_, ?_⟩
    · intro r hr
      exact Or.inl hr
    · intro j hj
      omega
  | succ n ih =>
    obtain ⟨h1, h2, h3⟩ := ih
    have hsrc := (copy_body_iterate buf n c).2.1
    rw [Function.iterate_succ_apply', copy_body_reads, hsrc]
    refine ⟨?_, ?_, ?_⟩
    · simp [h1]; omega
    · intro r hr
      simp only [List.mem_append, List.mem_cons, List.mem_singleton, List.not_mem_nil,
        or_false] at hr
      rcases hr with hr | hr | hr
      · rcases h2 r hr with h | h
        · exact Or.inl h
        · exact Or.inr (by omega)
      · exact Or.inr (by omega)
      · exact Or.inr (by omega)
    · intro j hj
      simp only [List.mem_append, List.mem_cons, List.mem_singleton, List.not_mem_nil,
        or_false]
      by_cases hjn : j < n
      · exact ⟨Or.inl (h3 j hjn).1, Or.inl (h3 j hjn).2⟩
      · have : j = n := by omega
        subst this
        exact ⟨Or.inr (Or.inl rfl), Or.inr (Or.inr rfl)⟩

/-- C19: for every 16-bit `avail` with which `process_rx_audio` reaches the copy, the loop is
`(avail + 3) / 4 = ceil(avail / 4)` passes of its body and ends with `i = 4 * ceil(avail / 4)`,
not below `avail`; it writes the `2 * ceil(avail / 4)` bytes at offsets below that number into
the slot, byte `k` of the slot being source byte `4 * (k / 2) + k % 2`, and nothing else; it
reads `2 * ceil(avail / 4)` source bytes, the bytes at offsets `4j` and `4j + 1` of every pass
`j`, all at offsets below `4 * ceil(avail / 4) - 2`; the recorded `buflen` is `avail / 2`; and
the number of bytes written equals `buflen` with no source byte read at an offset `>= avail`
if and only if `avail` is a multiple of 4. -/
theorem copy_loop_length_consistency (hd : AvsHeader) (env : Env) (s s1 : Sys)
    (buf : Nat → Nat) (avail_out : Nat)
    (hrun : s.app.rx_run = true)
    (hsetup : process_rx_audio_setup hd env s = .ok s1)
    (hwait : env.wiced_audio_wait_buffer s1.calls.length = WICED_SUCCESS)
    (hget : env.wiced_audio_get_buffer (s1.calls.length + 1) = (WICED_SUCCESS, buf, avail_out))
    (hfree : (s.app.pcm_bufs s.app.pcm_write_idx).inuse = 0) :
    copy_loop (avail_out % 2 ^ 16) buf
        { i := 0, src := 0, dst := 0, out := (s.app.pcm_bufs s.app.pcm_write_idx).buf,
          reads := [] }
      = (copy_body buf)^[(avail_out % 2 ^ 16 + 3) / 4]
        { i := 0, src := 0, dst := 0, out := (s.app.pcm_bufs s.app.pcm_write_idx).buf,
          reads := [] } ∧
    (copy_loop (avail_out % 2 ^ 16) buf
        { i := 0, src := 0, dst := 0, out := (s.app.pcm_bufs s.app.pcm_write_idx).buf,
          reads := [] }).i = 4 * ((avail_out % 2 ^ 16 + 3) / 4) ∧
    avail_out % 2 ^ 16 ≤ (copy_loop (avail_out % 2 ^ 16) buf
        { i := 0, src := 0, dst := 0, out := (s.app.pcm_bufs s.app.pcm_write_idx).buf,
          reads := [] }).i ∧
    (copy_loop (avail_out % 2 ^ 16) buf
        { i := 0, src := 0, dst := 0, out := (s.app.pcm_bufs s.app.pcm_write_idx).buf,
          reads := [] }).dst = 2 * ((avail_out % 2 ^ 16 + 3) / 4) ∧
    ((process_rx_audio hd env s).2.app.pcm_bufs s.app.pcm_write_idx).buf
      = (copy_loop (avail_out % 2 ^ 16) buf
        { i := 0, src := 0, dst := 0, out := (s.app.pcm_bufs s.app.pcm_write_idx).buf,
          reads := [] }).out ∧
    (∀ k, k < 2 * ((avail_out % 2 ^ 16 + 3) / 4) →
      ((process_rx_audio hd env s).2.app.pcm_bufs s.app.pcm_write_idx).buf k
        = buf (4 * (k / 2) + k % 2)) ∧
    (∀ k, 2 * ((avail_out % 2 ^ 16 + 3) / 4) ≤ k →
      ((process_rx_audio hd env s).2.app.pcm_bufs s.app.pcm_write_idx).buf k
        = (s.app.pcm_bufs s.app.pcm_write_idx).buf k) ∧
    (copy_loop (avail_out % 2 ^ 16) buf
        { i := 0, src := 0, dst := 0, out := (s.app.pcm_bufs s.app.pcm_write_idx).buf,
          reads := [] }).reads.length = 2 * ((avail_out % 2 ^ 16 + 3) / 4) ∧
    (∀ j, j < (avail_out % 2 ^ 16 + 3) / 4 →
      4 * j ∈ (copy_loop (avail_out % 2 ^ 16) buf
        { i := 0, src := 0, dst := 0, out := (s.app.pcm_bufs s.app.pcm_write_idx).buf,
          reads := [] }).reads ∧
      4 * j + 1 ∈ (copy_loop (avail_out % 2 ^ 16) buf
        { i := 0, src := 0, dst := 0, out := (s.app.pcm_bufs s.app.pcm_write_idx).buf,
          reads := [] }).reads) ∧
    (∀ r, r ∈ (copy_loop (avail_out % 2 ^ 16) buf
        { i := 0, src := 0, dst := 0, out := (s.app.pcm_bufs s.app.pcm_write_idx).buf,
          reads := [] }).reads → r < 4 * ((avail_out % 2 ^ 16 + 3) / 4) - 2) ∧
    ((process_rx_audio hd env s).2.app.pcm_bufs s.app.pcm_write_idx).buflen
      = avail_out % 2 ^ 16 / 2 ∧
    (((copy_loop (avail_out % 2 ^ 16) buf
        { i := 0, src := 0, dst := 0, out := (s.app.pcm_bufs s.app.pcm_write_idx).buf,
          reads := [] }).dst
        = ((process_rx_audio hd env s).2.app.pcm_bufs s.app.pcm_write_idx).buflen ∧
      ∀ r, r ∈ (copy_loop (avail_out % 2 ^ 16) buf
        { i := 0, src := 0, dst := 0, out := (s.app.pcm_bufs s.app.pcm_write_idx).buf,
          reads := [] }).reads → r < avail_out % 2 ^ 16)
      ↔ avail_out % 2 ^ 16 % 4 = 0) := by
  obtain ⟨-, -, -, -, hb, hw, -⟩ := (process_rx_audio_setup_frame hd env s).1 s1 hsetup
  have hfree1 : (s1.app.pcm_bufs s1.app.pcm_write_idx).inuse = 0 := by rw [hb, hw]; exact hfree
  obtain ⟨-, -, -, -, hp, -⟩ :=
    process_rx_audio_capture_free hd env s1 buf avail_out hwait hget hfree1
  have hrun2 : ¬ (s.app.rx_run = false) := by simp [hrun]
  simp only [process_rx_audio, if_neg hrun2, hsetup, hp, hw, hb, if_true]
  generalize avail_out % 2 ^ 16 = avail
  have hn : (avail - 0 + 3) / 4 = (avail + 3) / 4 := by simp
  obtain ⟨i1, -, i3, i4⟩ := copy_body_iterate buf ((avail + 3) / 4)
    { i := 0, src := 0, dst := 0, out := (s.app.pcm_bufs s.app.pcm_write_idx).buf, reads := [] }
  obtain ⟨r1, r2, r3⟩ := copy_body_iterate_reads buf ((avail + 3) / 4)
    { i := 0, src := 0, dst := 0, out := (s.app.pcm_bufs s.app.pcm_write_idx).buf, reads := [] }
  simp only [copy_loop_eq_iterate, hn]
  simp only [List.length_nil, List.not_mem_nil, false_or, Nat.zero_add, Nat.zero_le,
    true_and] at i1 i3 i4 r1 r2 r3
  refine ⟨trivial, i1, by rw [i1]; omega, i3, trivial, ?_, ?_, r1, r3, ?_, trivial, ?_⟩
  · intro k hk
    rw [i4 k, if_pos hk]
    simp
  · intro k hk
    rw [i4 k, if_neg (by omega)]
  · intro r hr
    have := r2 r hr
    omega
  · rw [i3]
    constructor
    · intro h
      omega
    · intro h
      refine ⟨by omega, ?_⟩
      intro r hr
      have := r2 r hr
      omega

/-- C19 in the world where every call succeeds, while capturing: 8 bytes available. -/
theorem copy_loop_length_consistency_witness :
    (copy_loop (8 % 2 ^ 16) (fun k => 10 + k)
        { i := 0, src := 0, dst := 0, out := (sys_capturing.app.pcm_bufs 0).buf,
          reads := [] }).dst = 2 * ((8 % 2 ^ 16 + 3) / 4) ∧
    (∀ k, k < 2 * ((8 % 2 ^ 16 + 3) / 4) →
      ((process_rx_audio hdr4 env_ok sys_capturing).2.app.pcm_bufs 0).buf k
        = 10 + (4 * (k / 2) + k % 2)) ∧
    ((process_rx_audio hdr4 env_ok sys_capturing).2.app.pcm_bufs 0).buflen = 8 % 2 ^ 16 / 2 ∧
    (∀ j, j < (8 % 2 ^ 16 + 3) / 4 →
      4 * j ∈ (copy_loop (8 % 2 ^ 16) (fun k => 10 + k)
        { i := 0, src := 0, dst := 0, out := (sys_capturing.app.pcm_bufs 0).buf,
          reads := [] }).reads ∧
      4 * j + 1 ∈ (copy_loop (8 % 2 ^ 16) (fun k => 10 + k)
        { i := 0, src := 0, dst := 0, out := (sys_capturing.app.pcm_bufs 0).buf,
          reads := [] }).reads) ∧
    (∀ r, r ∈ (copy_loop (8 % 2 ^ 16) (fun k => 10 + k)
        { i := 0, src := 0, dst := 0, out := (sys_capturing.app.pcm_bufs 0).buf,
          reads := [] }).reads → r < 4 * ((8 % 2 ^ 16 + 3) / 4) - 2) :=
  have h := copy_loop_length_consistency hdr4 env_ok sys_capturing sys_capturing
    (fun k => 10 + k) 8 rfl rfl rfl rfl rfl
  ⟨h.2.2.2.1, h.2.2.2.2.2.1, h.2.2.2.2.2.2.2.2.2.2.1, h.2.2.2.2.2.2.2.2.1,
   h.2.2.2.2.2.2.2.2.2.1⟩

end AvsApp

/-! ## Where the flags stay consistent -/

namespace AvsApp

open wiced_result_t

/-- The capture step never sets a flag: `rx_run` and `rx_configured` are kept and
`rx_started` can only be cleared. -/
theorem process_rx_audio_capture_flags (hd : AvsHeader) (env : Env) (s : Sys) :
    (process_rx_audio_capture hd env s).2.app.rx_run = s.app.rx_run ∧
    (process_rx_audio_capture hd env s).2.app.rx_configured = s.app.rx_configured ∧
    ((process_rx_audio_capture hd env s).2.app.rx_started = true → s.app.rx_started = true) := by
  unfold process_rx_audio_capture
  simp only [Id.run, bind, pure]
  split_ifs <;> simp

/-- When the lazy setup leaves through an early return, `rx_started` is as before, or false
with `rx_configured` true. -/
theorem process_rx_audio_setup_error_flags (hd : AvsHeader) (env : Env) (s s1 : Sys)
    (h : process_rx_audio_setup hd env s = .error s1) :
    (s1.app.rx_started = s.app.rx_started ∧ s1.app.rx_configured = s.app.rx_configured) ∨
    (s1.app.rx_started = false ∧ s1.app.rx_configured = true) := by
  have hf := initialize_audio_device_frame env (RX_PERIOD_SIZE hd) s
  unfold process_rx_audio_setup at h
  simp only [Id.run, bind, pure] at h
  split_ifs at h <;> simp at h <;> subst h <;> simp_all

/-- Apart from the `START` block after a failed initialisation, the worker keeps
"`rx_started` implies `rx_configured`": `process_rx_audio`, the `STOP` block and the code after
the loop keep it, and so does the `START` block from a configured state or when
`initialize_audio_device` succeeds. -/
theorem worker_keeps_started_implies_configured (hd : AvsHeader) (env : Env) (s : Sys)
    (hinv : s.app.rx_started = true → s.app.rx_configured = true) :
    ((process_rx_audio hd env s).2.app.rx_started = true →
      (process_rx_audio hd env s).2.app.rx_configured = true) ∧
    ((rx_thread_STOP s).app.rx_started = true → (rx_thread_STOP s).app.rx_configured = true) ∧
    ((rx_thread_exit s).app.rx_started = true → (rx_thread_exit s).app.rx_configured = true) ∧
    ((s.app.rx_configured = true ∨
        (initialize_audio_device env (RX_PERIOD_SIZE hd) s).1 = WICED_SUCCESS) →
      (rx_thread_START hd env s).app.rx_started = true →
      (rx_thread_START hd env s).app.rx_configured = true) := by
  refine ⟨?_, ?_, ?_, ?_⟩
  · unfold process_rx_audio
    split_ifs with hr
    · exact hinv
    · cases hset : process_rx_audio_setup hd env s with
      | error s1 =>
        simp only
        rcases process_rx_audio_setup_error_flags hd env s s1 hset with h | h
        · rw [h.1, h.2]; exact hinv
        · intro _; exact h.2
      | ok s1 =>
        simp only
        obtain ⟨hc, -⟩ := (process_rx_audio_setup_frame hd env s).1 s1 hset
        intro _
        rw [(process_rx_audio_capture_flags hd env s1).2.1, hc]
  · cases hr : s.app.rx_run
    · rw [rx_thread_STOP_not_running s hr]; exact hinv
    · intro h
      rw [(rx_thread_STOP_flags s hr).2.2] at h
      exact absurd h (by simp)
  · intro h
    rw [(rx_thread_exit_flags s).2.2.1] at h
    exact absurd h (by simp)
  · intro hi
    have hf := initialize_audio_device_frame env (RX_PERIOD_SIZE hd) s
    unfold rx_thread_START
    simp only [Id.run, bind, pure]
    rcases hi with hi | hi
    · split_ifs <;> simp_all
    · split_ifs <;> simp_all

end AvsApp
